import Mathlib

/-!
Shallow embedding of `tls/s2n_handshake_io.c` (the s2n TLS handshake I/O
driver): the message catalog (`state_machine`), the handshake-variant table
(`handshakes`), the handshake-type computation (`s2n_conn_set_handshake_type`,
`s2n_conn_set_handshake_no_client_cert`), the read path
(`read_full_handshake_message`, `handshake_read_io`), the write path
(`handshake_write_io`) and the write-error recovery branch of `s2n_negotiate`.

Byte buffers (the stuffers `conn->handshake.io` and `conn->in`) are modelled
as `List Nat` holding the unread bytes; machine-integer arithmetic that can
wrap (the `uint32_t` subtraction in `read_full_handshake_message`) is modelled
with explicit `% 2 ^ 32`.  External collaborators (per-message handlers, the
record layer, the session cache, the ticket crypto) are abstracted by
parameters recording their observable outcome; handler invocations and
transcript-hash updates are recorded as an event trace on the connection.
-/

namespace S2nHandshakeIo

/-- The sixteen message kinds of the driver, in the order of the
`message_type_t` enumeration (`CLIENT_HELLO` is the zero/default value used
for uninitialised variant-table slots). -/
inductive message_type where
  | CLIENT_HELLO
  | SERVER_HELLO
  | SERVER_NEW_SESSION_TICKET
  | SERVER_CERT
  | SERVER_CERT_STATUS
  | SERVER_KEY
  | SERVER_CERT_REQ
  | SERVER_HELLO_DONE
  | CLIENT_CERT
  | CLIENT_KEY
  | CLIENT_CERT_VERIFY
  | CLIENT_CHANGE_CIPHER_SPEC
  | CLIENT_FINISHED
  | SERVER_CHANGE_CIPHER_SPEC
  | SERVER_FINISHED
  | APPLICATION_DATA
deriving DecidableEq, Repr

open message_type

/-- TLS record content types (record-layer constants; values are the standard
TLS ContentType numbers, modelled from the spec since the header defining them
is not part of the handshake I/O source file). -/
def TLS_CHANGE_CIPHER_SPEC : Nat := 20

def TLS_ALERT : Nat := 21

def TLS_HANDSHAKE : Nat := 22

def TLS_APPLICATION_DATA : Nat := 23

/- Handshake message wire types, from RFC 5246 7.4 (verbatim from the source
file's `#define`s). -/
def TLS_HELLO_REQUEST : Nat := 0

def TLS_CLIENT_HELLO : Nat := 1

def TLS_SERVER_HELLO : Nat := 2

def TLS_SERVER_NEW_SESSION_TICKET : Nat := 4

def TLS_SERVER_CERT : Nat := 11

def TLS_SERVER_KEY : Nat := 12

def TLS_SERVER_CERT_REQ : Nat := 13

def TLS_CLIENT_CERT_REQ : Nat := 13

def TLS_SERVER_HELLO_DONE : Nat := 14

def TLS_CLIENT_CERT : Nat := 11

def TLS_CLIENT_CERT_VERIFY : Nat := 15

def TLS_CLIENT_KEY : Nat := 16

def TLS_CLIENT_FINISHED : Nat := 20

def TLS_SERVER_FINISHED : Nat := 20

def TLS_SERVER_CERT_STATUS : Nat := 22

/-- Modelled from the spec: the handshake-type bitset flags.  The header
`tls/s2n_handshake.h` defining the numeric values is not under `src/`; the
bit positions follow the `handshake_type_names` table in the source
(bit i of the type corresponds to `handshake_type_names[i]`). -/
def INITIAL : Nat := 0

def NEGOTIATED : Nat := 1

def FULL_HANDSHAKE : Nat := 2

def PERFECT_FORWARD_SECRECY : Nat := 4

def OCSP_STATUS : Nat := 8

def CLIENT_AUTH : Nat := 16

def WITH_SESSION_TICKET : Nat := 32

def NO_CLIENT_CERT : Nat := 64

/-- Modelled from the spec: `TLS_HANDSHAKE_HEADER_LENGTH` (the 4-byte
handshake message header: 1 type byte, 3 length bytes), defined in a header
not under `src/`. -/
def TLS_HANDSHAKE_HEADER_LENGTH : Nat := 4

/-- Modelled from the spec: `S2N_MAXIMUM_HANDSHAKE_MESSAGE_LENGTH`, the bound
on a handshake message body (64 KiB in the upstream header, which is not under
`src/`).  The claims depend only on the bound's existence, not its value. -/
def S2N_MAXIMUM_HANDSHAKE_MESSAGE_LENGTH : Nat := 65536

/-- Endpoint role (`conn->mode`). -/
inductive s2n_mode where
  | server
  | client
deriving DecidableEq, Repr

/-- Client-certificate authentication mode
(`s2n_connection_get_client_auth_type` result). -/
inductive s2n_cert_auth_type where
  | auth_none
  | auth_required
  | auth_optional
deriving DecidableEq, Repr

/-- Modelled from the spec: session-ticket status values used by
`s2n_conn_set_handshake_type` (`conn->session_ticket_status`); the enum lives
in a header not under `src/`. -/
inductive ticket_status where
  | no_ticket
  | decrypt_ticket
  | new_ticket
deriving DecidableEq, Repr

/-- The driver's error taxonomy as visible to the claims. -/
inductive s2n_error where
  | bad_message
  | handler_failed
  | alert
  | blocked
  | other (n : Nat)
deriving DecidableEq, Repr

/-- One row of the message catalog `state_machine[]`: record type, wire
message type and writer side.  The two handler callbacks are abstracted by
the event trace (see `hs_event`). -/
structure s2n_handshake_action where
  record_type : Nat
  msg_type : Nat
  writer : Char
deriving DecidableEq, Repr

/-- The message catalog `state_machine[]`, verbatim from the source. -/
def state_machine : message_type → s2n_handshake_action
  | CLIENT_HELLO => ⟨TLS_HANDSHAKE, TLS_CLIENT_HELLO, 'C'⟩
  | SERVER_HELLO => ⟨TLS_HANDSHAKE, TLS_SERVER_HELLO, 'S'⟩
  | SERVER_NEW_SESSION_TICKET => ⟨TLS_HANDSHAKE, TLS_SERVER_NEW_SESSION_TICKET, 'S'⟩
  | SERVER_CERT => ⟨TLS_HANDSHAKE, TLS_SERVER_CERT, 'S'⟩
  | SERVER_CERT_STATUS => ⟨TLS_HANDSHAKE, TLS_SERVER_CERT_STATUS, 'S'⟩
  | SERVER_KEY => ⟨TLS_HANDSHAKE, TLS_SERVER_KEY, 'S'⟩
  | SERVER_CERT_REQ => ⟨TLS_HANDSHAKE, TLS_CLIENT_CERT_REQ, 'S'⟩
  | SERVER_HELLO_DONE => ⟨TLS_HANDSHAKE, TLS_SERVER_HELLO_DONE, 'S'⟩
  | CLIENT_CERT => ⟨TLS_HANDSHAKE, TLS_CLIENT_CERT, 'C'⟩
  | CLIENT_KEY => ⟨TLS_HANDSHAKE, TLS_CLIENT_KEY, 'C'⟩
  | CLIENT_CERT_VERIFY => ⟨TLS_HANDSHAKE, TLS_CLIENT_CERT_VERIFY, 'C'⟩
  | CLIENT_CHANGE_CIPHER_SPEC => ⟨TLS_CHANGE_CIPHER_SPEC, 0, 'C'⟩
  | CLIENT_FINISHED => ⟨TLS_HANDSHAKE, TLS_CLIENT_FINISHED, 'C'⟩
  | SERVER_CHANGE_CIPHER_SPEC => ⟨TLS_CHANGE_CIPHER_SPEC, 0, 'S'⟩
  | SERVER_FINISHED => ⟨TLS_HANDSHAKE, TLS_SERVER_FINISHED, 'S'⟩
  | APPLICATION_DATA => ⟨TLS_APPLICATION_DATA, 0, 'B'⟩

/-- The designated-initializer rows of the variant table `handshakes[128][16]`
as an association list from handshake-type bitset to message sequence,
verbatim from the source.  A bitset without a row is an uninitialised
(all-zero) row of the C array. -/
def handshakes_rows : List (Nat × List message_type) := [
  (INITIAL, [CLIENT_HELLO, SERVER_HELLO]),
  (NEGOTIATED,
    [CLIENT_HELLO,
     SERVER_HELLO, SERVER_CHANGE_CIPHER_SPEC, SERVER_FINISHED,
     CLIENT_CHANGE_CIPHER_SPEC, CLIENT_FINISHED,
     APPLICATION_DATA]),
  (NEGOTIATED ||| WITH_SESSION_TICKET,
    [CLIENT_HELLO,
     SERVER_HELLO, SERVER_NEW_SESSION_TICKET, SERVER_CHANGE_CIPHER_SPEC, SERVER_FINISHED,
     CLIENT_CHANGE_CIPHER_SPEC, CLIENT_FINISHED,
     APPLICATION_DATA]),
  (NEGOTIATED ||| FULL_HANDSHAKE,
    [CLIENT_HELLO,
     SERVER_HELLO, SERVER_CERT, SERVER_HELLO_DONE,
     CLIENT_KEY, CLIENT_CHANGE_CIPHER_SPEC, CLIENT_FINISHED,
     SERVER_CHANGE_CIPHER_SPEC, SERVER_FINISHED,
     APPLICATION_DATA]),
  (NEGOTIATED ||| FULL_HANDSHAKE ||| WITH_SESSION_TICKET,
    [CLIENT_HELLO,
     SERVER_HELLO, SERVER_CERT, SERVER_HELLO_DONE,
     CLIENT_KEY, CLIENT_CHANGE_CIPHER_SPEC, CLIENT_FINISHED,
     SERVER_NEW_SESSION_TICKET, SERVER_CHANGE_CIPHER_SPEC, SERVER_FINISHED,
     APPLICATION_DATA]),
  (NEGOTIATED ||| FULL_HANDSHAKE ||| PERFECT_FORWARD_SECRECY,
    [CLIENT_HELLO,
     SERVER_HELLO, SERVER_CERT, SERVER_KEY, SERVER_HELLO_DONE,
     CLIENT_KEY, CLIENT_CHANGE_CIPHER_SPEC, CLIENT_FINISHED,
     SERVER_CHANGE_CIPHER_SPEC, SERVER_FINISHED,
     APPLICATION_DATA]),
  (NEGOTIATED ||| FULL_HANDSHAKE ||| PERFECT_FORWARD_SECRECY ||| WITH_SESSION_TICKET,
    [CLIENT_HELLO,
     SERVER_HELLO, SERVER_CERT, SERVER_KEY, SERVER_HELLO_DONE,
     CLIENT_KEY, CLIENT_CHANGE_CIPHER_SPEC, CLIENT_FINISHED,
     SERVER_NEW_SESSION_TICKET, SERVER_CHANGE_CIPHER_SPEC, SERVER_FINISHED,
     APPLICATION_DATA]),
  (NEGOTIATED ||| FULL_HANDSHAKE ||| OCSP_STATUS,
    [CLIENT_HELLO,
     SERVER_HELLO, SERVER_CERT, SERVER_CERT_STATUS, SERVER_HELLO_DONE,
     CLIENT_KEY, CLIENT_CHANGE_CIPHER_SPEC, CLIENT_FINISHED,
     SERVER_CHANGE_CIPHER_SPEC, SERVER_FINISHED,
     APPLICATION_DATA]),
  (NEGOTIATED ||| FULL_HANDSHAKE ||| OCSP_STATUS ||| WITH_SESSION_TICKET,
    [CLIENT_HELLO,
     SERVER_HELLO, SERVER_CERT, SERVER_CERT_STATUS, SERVER_HELLO_DONE,
     CLIENT_KEY, CLIENT_CHANGE_CIPHER_SPEC, CLIENT_FINISHED,
     SERVER_NEW_SESSION_TICKET, SERVER_CHANGE_CIPHER_SPEC, SERVER_FINISHED,
     APPLICATION_DATA]),
  (NEGOTIATED ||| FULL_HANDSHAKE ||| PERFECT_FORWARD_SECRECY ||| OCSP_STATUS,
    [CLIENT_HELLO,
     SERVER_HELLO, SERVER_CERT, SERVER_CERT_STATUS, SERVER_KEY, SERVER_HELLO_DONE,
     CLIENT_KEY, CLIENT_CHANGE_CIPHER_SPEC, CLIENT_FINISHED,
     SERVER_CHANGE_CIPHER_SPEC, SERVER_FINISHED,
     APPLICATION_DATA]),
  (NEGOTIATED ||| FULL_HANDSHAKE ||| PERFECT_FORWARD_SECRECY ||| OCSP_STATUS |||
     WITH_SESSION_TICKET,
    [CLIENT_HELLO,
     SERVER_HELLO, SERVER_CERT, SERVER_CERT_STATUS, SERVER_KEY, SERVER_HELLO_DONE,
     CLIENT_KEY, CLIENT_CHANGE_CIPHER_SPEC, CLIENT_FINISHED,
     SERVER_NEW_SESSION_TICKET, SERVER_CHANGE_CIPHER_SPEC, SERVER_FINISHED,
     APPLICATION_DATA]),
  (NEGOTIATED ||| FULL_HANDSHAKE ||| CLIENT_AUTH,
    [CLIENT_HELLO,
     SERVER_HELLO, SERVER_CERT, SERVER_CERT_REQ, SERVER_HELLO_DONE,
     CLIENT_CERT, CLIENT_KEY, CLIENT_CERT_VERIFY, CLIENT_CHANGE_CIPHER_SPEC, CLIENT_FINISHED,
     SERVER_CHANGE_CIPHER_SPEC, SERVER_FINISHED,
     APPLICATION_DATA]),
  (NEGOTIATED ||| FULL_HANDSHAKE ||| CLIENT_AUTH ||| NO_CLIENT_CERT,
    [CLIENT_HELLO,
     SERVER_HELLO, SERVER_CERT, SERVER_CERT_REQ, SERVER_HELLO_DONE,
     CLIENT_CERT, CLIENT_KEY, CLIENT_CHANGE_CIPHER_SPEC, CLIENT_FINISHED,
     SERVER_CHANGE_CIPHER_SPEC, SERVER_FINISHED,
     APPLICATION_DATA]),
  (NEGOTIATED ||| FULL_HANDSHAKE ||| CLIENT_AUTH ||| WITH_SESSION_TICKET,
    [CLIENT_HELLO,
     SERVER_HELLO, SERVER_CERT, SERVER_CERT_REQ, SERVER_HELLO_DONE,
     CLIENT_CERT, CLIENT_KEY, CLIENT_CERT_VERIFY, CLIENT_CHANGE_CIPHER_SPEC, CLIENT_FINISHED,
     SERVER_NEW_SESSION_TICKET, SERVER_CHANGE_CIPHER_SPEC, SERVER_FINISHED,
     APPLICATION_DATA]),
  (NEGOTIATED ||| FULL_HANDSHAKE ||| CLIENT_AUTH ||| NO_CLIENT_CERT ||| WITH_SESSION_TICKET,
    [CLIENT_HELLO,
     SERVER_HELLO, SERVER_CERT, SERVER_CERT_REQ, SERVER_HELLO_DONE,
     CLIENT_CERT, CLIENT_KEY, CLIENT_CHANGE_CIPHER_SPEC, CLIENT_FINISHED,
     SERVER_NEW_SESSION_TICKET, SERVER_CHANGE_CIPHER_SPEC, SERVER_FINISHED,
     APPLICATION_DATA]),
  (NEGOTIATED ||| FULL_HANDSHAKE ||| PERFECT_FORWARD_SECRECY ||| CLIENT_AUTH,
    [CLIENT_HELLO,
     SERVER_HELLO, SERVER_CERT, SERVER_KEY, SERVER_CERT_REQ, SERVER_HELLO_DONE,
     CLIENT_CERT, CLIENT_KEY, CLIENT_CERT_VERIFY, CLIENT_CHANGE_CIPHER_SPEC, CLIENT_FINISHED,
     SERVER_CHANGE_CIPHER_SPEC, SERVER_FINISHED,
     APPLICATION_DATA]),
  (NEGOTIATED ||| FULL_HANDSHAKE ||| PERFECT_FORWARD_SECRECY ||| CLIENT_AUTH |||
     NO_CLIENT_CERT,
    [CLIENT_HELLO,
     SERVER_HELLO, SERVER_CERT, SERVER_KEY, SERVER_CERT_REQ, SERVER_HELLO_DONE,
     CLIENT_CERT, CLIENT_KEY, CLIENT_CHANGE_CIPHER_SPEC, CLIENT_FINISHED,
     SERVER_CHANGE_CIPHER_SPEC, SERVER_FINISHED,
     APPLICATION_DATA]),
  (NEGOTIATED ||| FULL_HANDSHAKE ||| PERFECT_FORWARD_SECRECY ||| CLIENT_AUTH |||
     WITH_SESSION_TICKET,
    [CLIENT_HELLO,
     SERVER_HELLO, SERVER_CERT, SERVER_KEY, SERVER_CERT_REQ, SERVER_HELLO_DONE,
     CLIENT_CERT, CLIENT_KEY, CLIENT_CERT_VERIFY, CLIENT_CHANGE_CIPHER_SPEC, CLIENT_FINISHED,
     SERVER_NEW_SESSION_TICKET, SERVER_CHANGE_CIPHER_SPEC, SERVER_FINISHED,
     APPLICATION_DATA]),
  (NEGOTIATED ||| FULL_HANDSHAKE ||| PERFECT_FORWARD_SECRECY ||| CLIENT_AUTH |||
     NO_CLIENT_CERT ||| WITH_SESSION_TICKET,
    [CLIENT_HELLO,
     SERVER_HELLO, SERVER_CERT, SERVER_KEY, SERVER_CERT_REQ, SERVER_HELLO_DONE,
     CLIENT_CERT, CLIENT_KEY, CLIENT_CHANGE_CIPHER_SPEC, CLIENT_FINISHED,
     SERVER_NEW_SESSION_TICKET, SERVER_CHANGE_CIPHER_SPEC, SERVER_FINISHED,
     APPLICATION_DATA]),
  (NEGOTIATED ||| FULL_HANDSHAKE ||| OCSP_STATUS ||| CLIENT_AUTH,
    [CLIENT_HELLO,
     SERVER_HELLO, SERVER_CERT, SERVER_CERT_STATUS, SERVER_CERT_REQ, SERVER_HELLO_DONE,
     CLIENT_CERT, CLIENT_KEY, CLIENT_CERT_VERIFY, CLIENT_CHANGE_CIPHER_SPEC, CLIENT_FINISHED,
     SERVER_CHANGE_CIPHER_SPEC, SERVER_FINISHED,
     APPLICATION_DATA]),
  (NEGOTIATED ||| FULL_HANDSHAKE ||| OCSP_STATUS ||| CLIENT_AUTH ||| NO_CLIENT_CERT,
    [CLIENT_HELLO,
     SERVER_HELLO, SERVER_CERT, SERVER_CERT_STATUS, SERVER_CERT_REQ, SERVER_HELLO_DONE,
     CLIENT_CERT, CLIENT_KEY, CLIENT_CHANGE_CIPHER_SPEC, CLIENT_FINISHED,
     SERVER_CHANGE_CIPHER_SPEC, SERVER_FINISHED,
     APPLICATION_DATA]),
  (NEGOTIATED ||| FULL_HANDSHAKE ||| OCSP_STATUS ||| CLIENT_AUTH ||| WITH_SESSION_TICKET,
    [CLIENT_HELLO,
     SERVER_HELLO, SERVER_CERT, SERVER_CERT_STATUS, SERVER_CERT_REQ, SERVER_HELLO_DONE,
     CLIENT_CERT, CLIENT_KEY, CLIENT_CERT_VERIFY, CLIENT_CHANGE_CIPHER_SPEC, CLIENT_FINISHED,
     SERVER_NEW_SESSION_TICKET, SERVER_CHANGE_CIPHER_SPEC, SERVER_FINISHED,
     APPLICATION_DATA]),
  (NEGOTIATED ||| FULL_HANDSHAKE ||| OCSP_STATUS ||| CLIENT_AUTH ||| NO_CLIENT_CERT |||
     WITH_SESSION_TICKET,
    [CLIENT_HELLO,
     SERVER_HELLO, SERVER_CERT, SERVER_CERT_STATUS, SERVER_CERT_REQ, SERVER_HELLO_DONE,
     CLIENT_CERT, CLIENT_KEY, CLIENT_CHANGE_CIPHER_SPEC, CLIENT_FINISHED,
     SERVER_NEW_SESSION_TICKET, SERVER_CHANGE_CIPHER_SPEC, SERVER_FINISHED,
     APPLICATION_DATA]),
  (NEGOTIATED ||| FULL_HANDSHAKE ||| PERFECT_FORWARD_SECRECY ||| OCSP_STATUS ||| CLIENT_AUTH,
    [CLIENT_HELLO,
     SERVER_HELLO, SERVER_CERT, SERVER_CERT_STATUS, SERVER_KEY, SERVER_CERT_REQ,
     SERVER_HELLO_DONE,
     CLIENT_CERT, CLIENT_KEY, CLIENT_CERT_VERIFY, CLIENT_CHANGE_CIPHER_SPEC, CLIENT_FINISHED,
     SERVER_CHANGE_CIPHER_SPEC, SERVER_FINISHED,
     APPLICATION_DATA]),
  (NEGOTIATED ||| FULL_HANDSHAKE ||| PERFECT_FORWARD_SECRECY ||| OCSP_STATUS |||
     CLIENT_AUTH ||| NO_CLIENT_CERT,
    [CLIENT_HELLO,
     SERVER_HELLO, SERVER_CERT, SERVER_CERT_STATUS, SERVER_KEY, SERVER_CERT_REQ,
     SERVER_HELLO_DONE,
     CLIENT_CERT, CLIENT_KEY, CLIENT_CHANGE_CIPHER_SPEC, CLIENT_FINISHED,
     SERVER_CHANGE_CIPHER_SPEC, SERVER_FINISHED,
     APPLICATION_DATA]),
  (NEGOTIATED ||| FULL_HANDSHAKE ||| PERFECT_FORWARD_SECRECY ||| OCSP_STATUS |||
     CLIENT_AUTH ||| WITH_SESSION_TICKET,
    [CLIENT_HELLO,
     SERVER_HELLO, SERVER_CERT, SERVER_CERT_STATUS, SERVER_KEY, SERVER_CERT_REQ,
     SERVER_HELLO_DONE,
     CLIENT_CERT, CLIENT_KEY, CLIENT_CERT_VERIFY, CLIENT_CHANGE_CIPHER_SPEC, CLIENT_FINISHED,
     SERVER_NEW_SESSION_TICKET, SERVER_CHANGE_CIPHER_SPEC, SERVER_FINISHED,
     APPLICATION_DATA]),
  (NEGOTIATED ||| FULL_HANDSHAKE ||| PERFECT_FORWARD_SECRECY ||| OCSP_STATUS |||
     CLIENT_AUTH ||| NO_CLIENT_CERT ||| WITH_SESSION_TICKET,
    [CLIENT_HELLO,
     SERVER_HELLO, SERVER_CERT, SERVER_CERT_STATUS, SERVER_KEY, SERVER_CERT_REQ,
     SERVER_HELLO_DONE,
     CLIENT_CERT, CLIENT_KEY, CLIENT_CHANGE_CIPHER_SPEC, CLIENT_FINISHED,
     SERVER_NEW_SESSION_TICKET, SERVER_CHANGE_CIPHER_SPEC, SERVER_FINISHED,
     APPLICATION_DATA])]

/-- The variant table `handshakes[128][16]`: the sequence for a handshake-type
bitset, or `[]` for an uninitialised row. -/
def handshakes (handshake_type : Nat) : List message_type :=
  (handshakes_rows.lookup handshake_type).getD []

end S2nHandshakeIo

namespace S2nHandshakeIo

open message_type

/-- Observable events of the driver: a per-message handler invocation (with
the payload bytes it is handed), a transcript-hash update
(`s2n_conn_update_handshake_hashes`: the bytes fed, in order, to every
required hash), and a record written to the wire. -/
inductive hs_event where
  | handler (msg : message_type) (payload : List Nat)
  | hash (bytes : List Nat)
  | record_write (bytes : List Nat)
deriving DecidableEq, Repr

/-- The connection handshake state used by the claims (`struct s2n_connection`
restricted to the fields the handshake I/O driver reads and writes; the
`handshake.io` and `in` stuffers are threaded separately as byte lists).
`events` is the observable trace; `killed` records `s2n_connection_kill`. -/
structure s2n_connection where
  mode : s2n_mode
  client_cert_auth_type : s2n_cert_auth_type
  handshake_type : Nat
  message_number : Nat
  events : List hs_event
  killed : Bool
deriving DecidableEq, Repr

/-- `ACTIVE_MESSAGE(conn)`: `handshakes[handshake_type][message_number]`.
Uninitialised slots of the zero-filled C rows read as the zero enum value
`CLIENT_HELLO`, hence the `getD` default. -/
def ACTIVE_MESSAGE (conn : s2n_connection) : message_type :=
  (handshakes conn.handshake_type).getD conn.message_number CLIENT_HELLO

/-- `ACTIVE_STATE(conn)`: the catalog row of the active message. -/
def ACTIVE_STATE (conn : s2n_connection) : s2n_handshake_action :=
  state_machine (ACTIVE_MESSAGE conn)

/-- `EXPECTED_MESSAGE_TYPE(conn)`: the wire type expected at the current
position. -/
def EXPECTED_MESSAGE_TYPE (conn : s2n_connection) : Nat :=
  (ACTIVE_STATE conn).msg_type

/-- `s2n_advance_message`: increment the message number.  The remainder of the
C function adjusts transport corking (`s2n_socket_quickack`,
`s2n_socket_write_cork/uncork`), which touches no state observable by the
claims. -/
def s2n_advance_message (conn : s2n_connection) : s2n_connection :=
  { conn with message_number := conn.message_number + 1 }

/-- Outcomes of the external collaborators consulted by
`s2n_conn_set_handshake_type`, with the s2n return-code convention kept
(0 = success for `s2n_decrypt_session_ticket` and `s2n_resume_from_cache`). -/
structure resume_oracle where
  use_tickets : Bool
  session_ticket_status : ticket_status
  decrypt_session_ticket_rc : Int
  encrypt_decrypt_key_available : Int
  allowed_to_cache_connection : Bool
  resume_from_cache_rc : Int
  client_session_resumed : Bool
  kex_is_ephemeral : Bool
  server_can_send_ocsp : Bool
  server_sent_ocsp : Bool
deriving DecidableEq, Repr

/-- Result of `s2n_conn_set_handshake_type`: the new handshake-type bitset and
ticket status, plus whether the session-ID cache lookup
(`s2n_resume_from_cache`) was actually performed. -/
structure set_handshake_type_result where
  handshake_type : Nat
  session_ticket_status : ticket_status
  cache_lookup_performed : Bool
deriving DecidableEq, Repr

/-- The tail of `s2n_conn_set_handshake_type` from the `skip_cache_lookup`
label: early return for a client whose session was resumed, otherwise a full
handshake with the conditional `CLIENT_AUTH`, `PERFECT_FORWARD_SECRECY` and
`OCSP_STATUS` flags.  (`s2n_generate_new_client_session_id` only refreshes the
session id from randomness and does not touch the bitset.) -/
def set_handshake_type_from_skip_cache_lookup (mode : s2n_mode)
    (auth : s2n_cert_auth_type) (o : resume_oracle) (ht : Nat) : Nat :=
  if mode = s2n_mode.client ∧ o.client_session_resumed then ht
  else
    let ht := ht ||| FULL_HANDSHAKE
    let ht :=
      if mode = s2n_mode.client ∧ auth = s2n_cert_auth_type.auth_required then
        ht ||| CLIENT_AUTH
      else if mode = s2n_mode.server ∧ auth ≠ s2n_cert_auth_type.auth_none then
        ht ||| CLIENT_AUTH
      else ht
    let ht := if o.kex_is_ephemeral then ht ||| PERFECT_FORWARD_SECRECY else ht
    let ht :=
      if o.server_can_send_ocsp ∨ o.server_sent_ocsp then ht ||| OCSP_STATUS else ht
    ht

/-- The session-ID cache branch of `s2n_conn_set_handshake_type`
(`if (s2n_allowed_to_cache_connection(conn) && !s2n_resume_from_cache(conn))
return 0;` followed by the fall-through into the full-handshake tail).
`s2n_resume_from_cache` is only called when caching is allowed
(short-circuit `&&`). -/
def set_handshake_type_cache_branch (mode : s2n_mode) (auth : s2n_cert_auth_type)
    (o : resume_oracle) (ht : Nat) (st : ticket_status) : set_handshake_type_result :=
  if o.allowed_to_cache_connection ∧ o.resume_from_cache_rc = 0 then
    ⟨ht, st, true⟩
  else
    ⟨set_handshake_type_from_skip_cache_lookup mode auth o ht, st,
      o.allowed_to_cache_connection⟩

/-- `s2n_conn_set_handshake_type`: seed the bitset with `NEGOTIATED`, handle
session tickets (a ticket that decrypts successfully — return code 0 — causes
an immediate return with the bitset still `NEGOTIATED`; a failed decrypt with
an encrypt-decrypt key available marks `WITH_SESSION_TICKET` and plans a new
ticket; both ticket paths skip the session-ID cache lookup via the
`goto skip_cache_lookup`), then the cache branch and the full-handshake
tail. -/
def s2n_conn_set_handshake_type (mode : s2n_mode) (auth : s2n_cert_auth_type)
    (o : resume_oracle) : set_handshake_type_result :=
  let ht := NEGOTIATED
  if o.use_tickets then
    if o.session_ticket_status = ticket_status.decrypt_ticket then
      if o.decrypt_session_ticket_rc = 0 then
        ⟨ht, o.session_ticket_status, false⟩
      else
        let st :=
          if o.encrypt_decrypt_key_available = 1 then ticket_status.new_ticket
          else o.session_ticket_status
        let ht :=
          if o.encrypt_decrypt_key_available = 1 then ht ||| WITH_SESSION_TICKET else ht
        ⟨set_handshake_type_from_skip_cache_lookup mode auth o ht, st, false⟩
    else
      let ht :=
        if o.session_ticket_status = ticket_status.new_ticket then
          ht ||| WITH_SESSION_TICKET
        else ht
      set_handshake_type_cache_branch mode auth o ht o.session_ticket_status
  else
    set_handshake_type_cache_branch mode auth o ht o.session_ticket_status

/-- `s2n_conn_set_handshake_no_client_cert`: fails with `BAD_MESSAGE` unless
the client-auth mode is optional, otherwise adds `NO_CLIENT_CERT` to the
bitset. -/
def s2n_conn_set_handshake_no_client_cert (conn : s2n_connection) :
    Except (s2n_error × s2n_connection) s2n_connection :=
  if conn.client_cert_auth_type ≠ s2n_cert_auth_type.auth_optional then
    .error (.bad_message, conn)
  else
    .ok { conn with handshake_type := conn.handshake_type ||| NO_CLIENT_CERT }

end S2nHandshakeIo

namespace S2nHandshakeIo

open message_type

/-- The wire type byte of a buffered handshake message
(`s2n_handshake_parse_header`, first header byte).  Modelled from the spec:
the header codec lives in `tls/s2n_handshake.c`, not under `src/`; the spec
fixes the format as 1 type byte followed by a 3-byte big-endian length. -/
def parsed_message_type (hio : List Nat) : Nat := hio.getD 0 0

/-- The 3-byte big-endian body length of a buffered handshake message
(`s2n_handshake_parse_header`, header bytes 1 to 3). -/
def parsed_length (hio : List Nat) : Nat :=
  hio.getD 1 0 * 65536 + hio.getD 2 0 * 256 + hio.getD 3 0

/-- Result of `read_full_handshake_message`: `need_more` is the C return value
1 (the record was drained into `handshake.io`), `complete` is return value 0
(a full message with its wire type, the buffered header-plus-body bytes and
the rest of the record), `oversize` is the `S2N_ERR_BAD_MESSAGE` failure on a
body length above `S2N_MAXIMUM_HANDSHAKE_MESSAGE_LENGTH`. -/
inductive read_full_result where
  | need_more (hio : List Nat)
  | complete (msg_type : Nat) (hio : List Nat) (inp : List Nat)
  | oversize
deriving DecidableEq, Repr

/-- First phase of `read_full_handshake_message`: while fewer than
`TLS_HANDSHAKE_HEADER_LENGTH` bytes are buffered, copy what the record has
(`s2n_stuffer_copy` of the header remainder, or of everything when the record
is shorter). -/
def rf_fill_header (hio inp : List Nat) : List Nat × List Nat :=
  if hio.length < TLS_HANDSHAKE_HEADER_LENGTH then
    (hio ++ inp.take (TLS_HANDSHAKE_HEADER_LENGTH - hio.length),
     inp.drop (TLS_HANDSHAKE_HEADER_LENGTH - hio.length))
  else (hio, inp)

/-- Second phase of `read_full_handshake_message`, after the header-fill: if
the header is still incomplete return 1; otherwise parse it, reject an
oversize body, and copy `handshake_message_length - data_available` bytes
(a `uint32_t` subtraction, hence the `% 2 ^ 32`) capped at what the record
holds; complete exactly when the whole body is buffered. -/
def rf_after_header (hio inp : List Nat) : read_full_result :=
  if hio.length < TLS_HANDSHAKE_HEADER_LENGTH then .need_more hio
  else if S2N_MAXIMUM_HANDSHAKE_MESSAGE_LENGTH < parsed_length hio then .oversize
  else
    let bytes_to_take :=
      min ((parsed_length hio + 2 ^ 32 - (hio.length - TLS_HANDSHAKE_HEADER_LENGTH)) % 2 ^ 32)
        inp.length
    let hio2 := hio ++ inp.take bytes_to_take
    let inp2 := inp.drop bytes_to_take
    if hio2.length - TLS_HANDSHAKE_HEADER_LENGTH = parsed_length hio then
      .complete (parsed_message_type hio) hio2 inp2
    else .need_more hio2

/-- `read_full_handshake_message(conn, &message_type)`: reassemble the current
handshake message from `conn->handshake.io` (`hio`) and the current record
payload `conn->in` (`inp`). -/
def read_full_handshake_message (hio inp : List Nat) : read_full_result :=
  rf_after_header (rf_fill_header hio inp).1 (rf_fill_header hio inp).2

/-- Well-formedness of the reassembly buffer between calls: either the header
is still incomplete, or the body is incomplete and its parsed length passed
the maximum-length check.  This is the invariant the C loop maintains for
`conn->handshake.io` across `read_full_handshake_message` calls. -/
def hio_wf (hio : List Nat) : Prop :=
  hio.length < TLS_HANDSHAKE_HEADER_LENGTH ∨
    (parsed_length hio ≤ S2N_MAXIMUM_HANDSHAKE_MESSAGE_LENGTH ∧
      hio.length - TLS_HANDSHAKE_HEADER_LENGTH < parsed_length hio)

section ReadPath

variable (handler_ok : message_type → List Nat → Bool)

/-- The optional-client-auth upgrade of `handshake_read_io` (source lines
784 to 789): a client with optional auth mode that received
`CLIENT_CERT_REQ` while expecting `SERVER_HELLO_DONE` adds `CLIENT_AUTH` to
the bitset. -/
def s2n_read_message_client_auth_repair (conn : s2n_connection)
    (actual_type : Nat) : s2n_connection :=
  if conn.mode = s2n_mode.client ∧
      conn.client_cert_auth_type = s2n_cert_auth_type.auth_optional ∧
      actual_type = TLS_CLIENT_CERT_REQ ∧
      EXPECTED_MESSAGE_TYPE conn = TLS_SERVER_HELLO_DONE then
    { conn with handshake_type := conn.handshake_type ||| CLIENT_AUTH }
  else conn

/-- The OCSP opt-out: a client that expected `SERVER_CERT_STATUS` but
received another type clears `OCSP_STATUS` (a `uint32_t` `&= ~OCSP_STATUS`,
hence the mask). -/
def s2n_read_message_ocsp_repair (conn : s2n_connection)
    (actual_type : Nat) : s2n_connection :=
  if conn.mode = s2n_mode.client ∧
      EXPECTED_MESSAGE_TYPE conn = TLS_SERVER_CERT_STATUS ∧
      actual_type ≠ TLS_SERVER_CERT_STATUS then
    { conn with handshake_type := conn.handshake_type &&& (2 ^ 32 - 1 - OCSP_STATUS) }
  else conn

/-- The per-complete-message block of the `while` loop in `handshake_read_io`
(source lines 779 to 817): the optional-client-auth upgrade, the OCSP
opt-out, the wire-type check, the handler invocation, the post-handler
transcript-hash update (`s2n_handshake_conn_update_hashes` feeds the full
header-plus-body bytes), the kill on handler failure and the advance.
`full` is the reassembled header-plus-body; the handler reads the payload
behind the 4-byte header. -/
def s2n_read_message_step (conn : s2n_connection) (actual_type : Nat)
    (full : List Nat) : Except (s2n_error × s2n_connection) s2n_connection :=
  let conn := s2n_read_message_client_auth_repair conn actual_type
  let conn := s2n_read_message_ocsp_repair conn actual_type
  if actual_type ≠ EXPECTED_MESSAGE_TYPE conn then .error (.bad_message, conn)
  else
    let msg := ACTIVE_MESSAGE conn
    let r := handler_ok msg (full.drop TLS_HANDSHAKE_HEADER_LENGTH)
    let conn :=
      { conn with
        events := conn.events ++
          [hs_event.handler msg (full.drop TLS_HANDSHAKE_HEADER_LENGTH),
           hs_event.hash full] }
    if r then .ok (s2n_advance_message conn)
    else .error (.handler_failed, { conn with killed := true })

end ReadPath

/-- The single-message view of reassembly used by the proofs: what
`read_full_handshake_message` does to the *concatenation* of its buffer and
record bytes (see `read_full_eq_rfm`). -/
def rfm (s : List Nat) : read_full_result :=
  if s.length < TLS_HANDSHAKE_HEADER_LENGTH then .need_more s
  else if S2N_MAXIMUM_HANDSHAKE_MESSAGE_LENGTH < parsed_length s then .oversize
  else if parsed_length s ≤ s.length - TLS_HANDSHAKE_HEADER_LENGTH then
    .complete (parsed_message_type s)
      (s.take (TLS_HANDSHAKE_HEADER_LENGTH + parsed_length s))
      (s.drop (TLS_HANDSHAKE_HEADER_LENGTH + parsed_length s))
  else .need_more s

section ReadLoop

variable (handler_ok : message_type → List Nat → Bool)

/-- The `while (s2n_stuffer_data_available(&conn->in))` loop of
`handshake_read_io` from its second iteration on: `conn->handshake.io` was
wiped after the previous message, so each iteration reassembles from an empty
buffer.  On `need_more` the loop returns 0 with the record drained (the
caller wipes `conn->in`); on a completed message the per-message block runs
and the loop continues. -/
def handshake_messages_rest (conn : s2n_connection) (inp : List Nat) :
    Except (s2n_error × s2n_connection) (s2n_connection × List Nat) :=
  if inp = [] then .ok (conn, [])
  else
    match hrf : read_full_handshake_message [] inp with
    | .oversize => .error (.bad_message, conn)
    | .need_more hio' => .ok (conn, hio')
    | .complete t full inp' =>
      match s2n_read_message_step handler_ok conn t full with
      | .error e => .error e
      | .ok conn' => handshake_messages_rest conn' inp'
termination_by inp.length
decreasing_by
  by_cases h4 : inp.length < 4
  · exfalso
    have hfill : rf_fill_header [] inp = ([] ++ inp.take 4, inp.drop 4) := by
      simp [rf_fill_header, TLS_HANDSHAKE_HEADER_LENGTH]
    rw [read_full_handshake_message, hfill] at hrf
    rw [rf_after_header, if_pos (by simpa [TLS_HANDSHAKE_HEADER_LENGTH] using
      (by simpa using Nat.lt_of_le_of_lt (Nat.min_le_right 4 inp.length) h4 :
        (inp.take 4).length < 4))] at hrf
    exact read_full_result.noConfusion hrf
  · push_neg at h4
    have hfill : rf_fill_header [] inp = (inp.take 4, inp.drop 4) := by
      simp [rf_fill_header, TLS_HANDSHAKE_HEADER_LENGTH]
    rw [read_full_handshake_message, hfill] at hrf
    simp only [rf_after_header, TLS_HANDSHAKE_HEADER_LENGTH] at hrf
    rw [if_neg (by simp [List.length_take, Nat.min_eq_left h4])] at hrf
    by_cases hmax : S2N_MAXIMUM_HANDSHAKE_MESSAGE_LENGTH < parsed_length (inp.take 4)
    · rw [if_pos hmax] at hrf
      exact read_full_result.noConfusion hrf
    · rw [if_neg hmax] at hrf
      split at hrf
      · cases hrf
        simp only [List.length_drop]
        omega
      · exact read_full_result.noConfusion hrf

/-- The full message loop of `handshake_read_io`: the first iteration may
start from a partially buffered message carried over in `conn->handshake.io`
(`hio`); after the first completed message the buffer is wiped and the loop
continues as `handshake_messages_rest`. -/
def handshake_messages_loop (conn : s2n_connection) (hio inp : List Nat) :
    Except (s2n_error × s2n_connection) (s2n_connection × List Nat) :=
  if inp = [] then .ok (conn, hio)
  else
    match read_full_handshake_message hio inp with
    | .oversize => .error (.bad_message, conn)
    | .need_more hio' => .ok (conn, hio')
    | .complete t full inp' =>
      match s2n_read_message_step handler_ok conn t full with
      | .error e => .error e
      | .ok conn' => handshake_messages_rest handler_ok conn' inp'

/-- `handshake_read_io` for one non-SSLv2 record of content type
`record_type` with payload `inp`, starting from reassembly buffer `hio`
(`conn->handshake.io`): application data is rejected, a change-cipher-spec
record must have exactly one payload byte and is fed to the handler of the
current position (no check of the position's record type), alert and unknown
record types leave the handshake state untouched (alert processing is an
external collaborator whose error propagation no claim depends on), and a
handshake record runs the message loop.  The result is the connection and the
remaining reassembly buffer. -/
def handshake_read_io (conn : s2n_connection) (hio : List Nat)
    (record_type : Nat) (inp : List Nat) :
    Except (s2n_error × s2n_connection) (s2n_connection × List Nat) :=
  if record_type = TLS_APPLICATION_DATA then .error (.bad_message, conn)
  else if record_type = TLS_CHANGE_CIPHER_SPEC then
    if inp.length ≠ 1 then .error (.bad_message, conn)
    else
      let buffered := hio ++ inp
      let msg := ACTIVE_MESSAGE conn
      let r := handler_ok msg buffered
      let conn := { conn with events := conn.events ++ [hs_event.handler msg buffered] }
      if r then .ok (s2n_advance_message conn, [])
      else .error (.handler_failed, conn)
  else if record_type ≠ TLS_HANDSHAKE then .ok (conn, hio)
  else handshake_messages_loop handler_ok conn hio inp

/-- The read side of the `s2n_negotiate` loop over a list of handshake
records: each record is read in full by the record layer and handed to
`handshake_read_io`, with the reassembly buffer carried from one record to
the next. -/
def negotiate_read_records (conn : s2n_connection) (hio : List Nat) :
    List (List Nat) → Except (s2n_error × s2n_connection) (s2n_connection × List Nat)
  | [] => .ok (conn, hio)
  | r :: rs =>
    match handshake_read_io handler_ok conn hio TLS_HANDSHAKE r with
    | .error e => .error e
    | .ok (conn', hio') => negotiate_read_records conn' hio' rs

end ReadLoop

end S2nHandshakeIo

namespace S2nHandshakeIo

/-- The bytes fed to the transcript hashes, in event order (`hash` events
record each `s2n_conn_update_handshake_hashes` call). -/
def hash_transcript : List hs_event → List Nat
  | [] => []
  | hs_event.hash bs :: es => bs ++ hash_transcript es
  | _ :: es => hash_transcript es

/-- The handshake bytes put on the wire, in event order (`record_write`
events record each `s2n_record_write` call). -/
def wire_bytes : List hs_event → List Nat
  | [] => []
  | hs_event.record_write bs :: es => bs ++ wire_bytes es
  | _ :: es => wire_bytes es

/-- The 4-byte handshake message header written by
`s2n_handshake_write_header` and finalised by `s2n_handshake_finish_header`:
the wire type byte and the 3-byte big-endian body length.  Modelled from the
spec: the header codec lives in `tls/s2n_handshake.c`, not under `src/`. -/
def handshake_header (msg_type : Nat) (len : Nat) : List Nat :=
  [msg_type, len / 65536 % 256, len / 256 % 256, len % 256]

/-- The fragmentation loop of `handshake_write_io`: cut the populated
`handshake.io` into chunks of at most `max_payload_size`
(`s2n_record_max_write_payload_size`).  The source loop does not terminate on
a zero maximum (the record layer guarantees a positive one), hence the guard;
theorems assume `0 < maxp`. -/
def handshake_fragments (maxp : Nat) (io : List Nat) : List (List Nat) :=
  if io = [] ∨ maxp = 0 then []
  else io.take maxp :: handshake_fragments maxp (io.drop maxp)
termination_by io.length
decreasing_by
  rename_i h
  push_neg at h
  have h1 : io ≠ [] := h.1
  have h2 : maxp ≠ 0 := h.2
  simp only [List.length_drop]
  have : 0 < io.length := List.length_pos.mpr h1
  omega

section WritePath

variable (handler_ok : message_type → List Nat → Bool)
variable (write_body : message_type → List Nat)

/-- `handshake_write_io`: populate `handshake.io` with the header (for
handshake records) and the body produced by the writing handler
(`write_body`), then emit it as records of at most the maximum payload size,
feeding each handshake fragment to the transcript hashes right after it is
written, and advance the state machine.  Returns the connection and the
emitted record payloads. -/
def handshake_write_io (maxp : Nat) (conn : s2n_connection) :
    s2n_connection × List (List Nat) :=
  let record_type := (ACTIVE_STATE conn).record_type
  let body := write_body (ACTIVE_MESSAGE conn)
  let io :=
    if record_type = TLS_HANDSHAKE then
      handshake_header (ACTIVE_STATE conn).msg_type body.length ++ body
    else body
  let frags := handshake_fragments maxp io
  let conn :=
    { conn with
      events := conn.events ++
        frags.flatMap (fun f =>
          hs_event.record_write f ::
            (if record_type = TLS_HANDSHAKE then [hs_event.hash f] else [])) }
  (s2n_advance_message conn, frags)

end WritePath

/-- The global error state captured and restored by `s2n_negotiate`'s
write-error recovery: the transport `errno`, the `s2n_errno` error code and
the `s2n_debug_str` pointer (modelled as a token). -/
structure s2n_global_error where
  errno : Int
  s2n_errno : s2n_error
  s2n_debug_str : Nat
deriving DecidableEq, Repr

/-- The I/O operations `s2n_negotiate` can invoke in one writer-turn
iteration. -/
inductive io_action where
  | write_io
  | read_io
deriving DecidableEq, Repr

/-- One writer-turn iteration of the `s2n_negotiate` loop (source lines 839
to 857), with the outcomes of `handshake_write_io` and `handshake_read_io`
abstracted: `write_rc` and `g_after_write` are the write call's return code
and the globals it leaves behind; `read_rc` and `g_after_read` likewise for
the recovery read.  Returns the I/O calls actually made and `some` of the
final return code and globals when the iteration returns, `none` when the
loop continues. -/
def s2n_negotiate_writer_turn (write_rc : Int) (g_after_write : s2n_global_error)
    (read_rc : Int) (g_after_read : s2n_global_error) :
    List io_action × Option (Int × s2n_global_error) :=
  if write_rc < 0 ∧ g_after_write.s2n_errno ≠ s2n_error.blocked then
    let write_errno := g_after_write.errno
    let write_s2n_errno := g_after_write.s2n_errno
    let write_s2n_debug_str := g_after_write.s2n_debug_str
    if read_rc < 0 ∧ g_after_read.s2n_errno = s2n_error.alert then
      ([io_action.write_io, io_action.read_io], some (-1, g_after_read))
    else
      ([io_action.write_io, io_action.read_io],
        some (-1,
          { g_after_read with
            errno := write_errno
            s2n_errno := write_s2n_errno
            s2n_debug_str := write_s2n_debug_str }))
  else ([io_action.write_io], none)

end S2nHandshakeIo

namespace S2nHandshakeIo

open message_type

/-- A successful association-list lookup means the key is among the stored
keys. -/
theorem lookup_mem_keys {l : List (Nat × List message_type)} {a : Nat}
    {b : List message_type} (h : l.lookup a = some b) : a ∈ l.map Prod.fst := by
  induction l with
  | nil => simp [List.lookup] at h
  | cons p l ih =>
    obtain ⟨k, v⟩ := p
    by_cases hk : a = k
    · simp [hk]
    · rw [List.lookup] at h
      have hbeq : (a == k) = false := by simpa using hk
      rw [hbeq] at h
      simpa [hk] using ih h

/-- Every initialised row of the variant table has an index below 128 (the
C array bound). -/
theorem handshakes_lt_of_ne_nil {ht : Nat} (h : handshakes ht ≠ []) : ht < 128 := by
  unfold handshakes at h
  cases hl : handshakes_rows.lookup ht with
  | none => rw [hl] at h; simp at h
  | some b =>
    have hmem := lookup_mem_keys hl
    exact (by decide : ∀ x ∈ handshakes_rows.map Prod.fst, x < 128) ht hmem

/-- Every row of the variant table fits the C array's 16 slots. -/
theorem handshakes_length_le (ht : Nat) : (handshakes ht).length ≤ 16 := by
  by_cases h : handshakes ht = []
  · simp [h]
  · exact (by decide : ∀ x : Fin 128, (handshakes (x : Nat)).length ≤ 16)
      ⟨ht, handshakes_lt_of_ne_nil h⟩

/-- The claim of C2 is false at `INITIAL`: the `INITIAL` row is an entry of
the variant table, yet its final element is `SERVER_HELLO`, not
`APPLICATION_DATA`. -/
theorem initial_row_not_terminal_app_data :
    handshakes INITIAL ≠ [] ∧
      (handshakes INITIAL).getLast? = some SERVER_HELLO ∧
      (handshakes INITIAL).getLast? ≠ some APPLICATION_DATA := by
  decide

/-- C2 (amended): every initialised row of the variant table is non-empty;
every initialised row other than `INITIAL` ends in `APPLICATION_DATA`; the
`INITIAL` row is exactly `[CLIENT_HELLO, SERVER_HELLO]` (so it ends in
`SERVER_HELLO` instead). -/
theorem variant_table_terminal :
    (∀ ht : Nat, handshakes ht ≠ [] → ht ≠ INITIAL →
        (handshakes ht).getLast? = some APPLICATION_DATA) ∧
      handshakes INITIAL = [CLIENT_HELLO, SERVER_HELLO] := by
  refine ⟨fun ht hne hinit => ?_, by decide⟩
  exact (by decide : ∀ x : Fin 128, handshakes (x : Nat) ≠ [] → (x : Nat) ≠ INITIAL →
      (handshakes (x : Nat)).getLast? = some APPLICATION_DATA)
    ⟨ht, handshakes_lt_of_ne_nil hne⟩ hne hinit

/-- Witness for `variant_table_terminal` at the plain full-handshake row. -/
theorem variant_table_terminal_witness :
    (handshakes (NEGOTIATED ||| FULL_HANDSHAKE)).getLast? = some APPLICATION_DATA :=
  variant_table_terminal.1 (NEGOTIATED ||| FULL_HANDSHAKE) (by decide) (by decide)

/-- The claim of C5 is false on the count: the variant table holds non-empty
rows for exactly 27 bitsets (INITIAL, the 2 abbreviated handshakes and the 24
full-handshake combinations), not 28. -/
theorem variant_table_row_count :
    ((List.range 128).countP (fun ht => !(handshakes ht).isEmpty)) = 27 ∧
      ((List.range 128).countP (fun ht => !(handshakes ht).isEmpty)) ≠ 28 := by
  decide

/-- C5 (amended): the variant table holds a non-empty sequence for exactly 27
bitsets, and every bitset with `NO_CLIENT_CERT` set but `CLIENT_AUTH` clear
has no entry. -/
theorem variant_table_reachable_rows :
    ((List.range 128).countP (fun ht => !(handshakes ht).isEmpty)) = 27 ∧
      (∀ ht : Nat, ht &&& CLIENT_AUTH = 0 → ht &&& NO_CLIENT_CERT ≠ 0 →
        handshakes ht = []) := by
  refine ⟨by decide, fun ht h1 h2 => ?_⟩
  by_contra h
  exact h ((by decide : ∀ x : Fin 128, (x : Nat) &&& CLIENT_AUTH = 0 →
      (x : Nat) &&& NO_CLIENT_CERT ≠ 0 → handshakes (x : Nat) = [])
    ⟨ht, handshakes_lt_of_ne_nil h⟩ h1 h2)

/-- Witness for `variant_table_reachable_rows`: the bitset with only
`NO_CLIENT_CERT` set has no row. -/
theorem variant_table_reachable_rows_witness : handshakes NO_CLIENT_CERT = [] :=
  variant_table_reachable_rows.2 NO_CLIENT_CERT (by decide) (by decide)

end S2nHandshakeIo

namespace S2nHandshakeIo

open message_type

/-- C8: `s2n_conn_set_handshake_no_client_cert` fails with `BAD_MESSAGE` and
leaves the connection state (hence the handshake-type bitset) unchanged
whenever the client-auth mode is not optional; when the mode is optional it
succeeds and its only effect is to set the `NO_CLIENT_CERT` bit (bit 6) of
the bitset, every other bit and every other field being unchanged. -/
theorem no_client_cert_downgrade (conn : s2n_connection) :
    (conn.client_cert_auth_type ≠ s2n_cert_auth_type.auth_optional →
      s2n_conn_set_handshake_no_client_cert conn = .error (.bad_message, conn)) ∧
    (conn.client_cert_auth_type = s2n_cert_auth_type.auth_optional →
      s2n_conn_set_handshake_no_client_cert conn =
        .ok { conn with handshake_type := conn.handshake_type ||| NO_CLIENT_CERT } ∧
      ∀ i, (conn.handshake_type ||| NO_CLIENT_CERT).testBit i =
        (conn.handshake_type.testBit i || decide (i = 6))) := by
  constructor
  · intro h
    simp [s2n_conn_set_handshake_no_client_cert, h]
  · intro h
    refine ⟨by simp [s2n_conn_set_handshake_no_client_cert, h], fun i => ?_⟩
    have h64 : (NO_CLIENT_CERT : Nat) = 2 ^ 6 := by decide
    rw [h64, Nat.testBit_or, Nat.testBit_two_pow]
    simp [eq_comm]

/-- Witness for `no_client_cert_downgrade`: both auth modes at concrete
connections. -/
theorem no_client_cert_downgrade_witness :
    s2n_conn_set_handshake_no_client_cert
        ⟨s2n_mode.server, s2n_cert_auth_type.auth_required, 3, 2, [], false⟩ =
      .error (.bad_message,
        ⟨s2n_mode.server, s2n_cert_auth_type.auth_required, 3, 2, [], false⟩) ∧
    s2n_conn_set_handshake_no_client_cert
        ⟨s2n_mode.server, s2n_cert_auth_type.auth_optional, 19, 4, [], false⟩ =
      .ok ⟨s2n_mode.server, s2n_cert_auth_type.auth_optional, 83, 4, [], false⟩ :=
  ⟨(no_client_cert_downgrade _).1 (by decide),
    by
      have h :=
        ((no_client_cert_downgrade
          ⟨s2n_mode.server, s2n_cert_auth_type.auth_optional, 19, 4, [], false⟩).2 rfl).1
      simpa using h⟩

/-- Setting any flags on a bitset preserves the `WITH_SESSION_TICKET` bit
through the full-handshake tail of `s2n_conn_set_handshake_type`. -/
theorem skip_cache_tail_testBit_five (mode : s2n_mode) (auth : s2n_cert_auth_type)
    (o : resume_oracle) (ht : Nat) (h : ht.testBit 5 = true) :
    (set_handshake_type_from_skip_cache_lookup mode auth o ht).testBit 5 = true := by
  simp only [set_handshake_type_from_skip_cache_lookup]
  split
  · exact h
  · repeat' split
    all_goals simp [Nat.testBit_or, h]

/-- Conversely, the full-handshake tail never *introduces* the
`WITH_SESSION_TICKET` bit: it only ORs in `FULL_HANDSHAKE`, `CLIENT_AUTH`,
`PERFECT_FORWARD_SECRECY` and `OCSP_STATUS`, none of which touch bit 5. -/
theorem skip_cache_tail_testBit_five_false (mode : s2n_mode)
    (auth : s2n_cert_auth_type) (o : resume_oracle) (ht : Nat)
    (h : ht.testBit 5 = false) :
    (set_handshake_type_from_skip_cache_lookup mode auth o ht).testBit 5 = false := by
  simp only [set_handshake_type_from_skip_cache_lookup]
  split
  · exact h
  · repeat' split
    all_goals
      simp [Nat.testBit_or, h, FULL_HANDSHAKE, CLIENT_AUTH,
        PERFECT_FORWARD_SECRECY, OCSP_STATUS,
        show Nat.testBit 2 5 = false from by decide,
        show Nat.testBit 16 5 = false from by decide,
        show Nat.testBit 4 5 = false from by decide,
        show Nat.testBit 8 5 = false from by decide]

/-- The claim of C1 is false on the decrypt-success case: with tickets
enabled, a ticket in decrypt status, a successful decrypt (return code 0) and
an encrypt-decrypt key available, `s2n_conn_set_handshake_type` returns with
the bitset equal to `NEGOTIATED` — the `WITH_SESSION_TICKET` bit is *not*
set (the cache lookup is indeed skipped). -/
theorem ticket_decrypt_success_no_wst :
    (s2n_conn_set_handshake_type s2n_mode.server s2n_cert_auth_type.auth_none
        ⟨true, ticket_status.decrypt_ticket, 0, 1, true, 0, false, true, true, false⟩).handshake_type &&&
        WITH_SESSION_TICKET = 0 ∧
    (s2n_conn_set_handshake_type s2n_mode.server s2n_cert_auth_type.auth_none
        ⟨true, ticket_status.decrypt_ticket, 0, 1, true, 0, false, true, true, false⟩).handshake_type =
      NEGOTIATED ∧
    (s2n_conn_set_handshake_type s2n_mode.server s2n_cert_auth_type.auth_none
        ⟨true, ticket_status.decrypt_ticket, 0, 1, true, 0, false, true, true, false⟩).cache_lookup_performed =
      false := by
  decide

/-- C1 (amended): with tickets enabled and a client ticket awaiting
decryption, a *successful* decrypt (s2n return code 0) makes
`s2n_conn_set_handshake_type` return immediately with the bitset still
`NEGOTIATED` and the session-ID cache lookup skipped; a *failed* decrypt also
skips the cache lookup, and sets `WITH_SESSION_TICKET` (bit 5) and plans a
new ticket exactly when an encrypt-decrypt key is available — with a key
available the status becomes `new_ticket` and bit 5 is set, without one the
status stays `decrypt_ticket` and bit 5 stays clear. -/
theorem set_handshake_type_ticket_path (mode : s2n_mode) (auth : s2n_cert_auth_type)
    (o : resume_oracle) (h1 : o.use_tickets = true)
    (h2 : o.session_ticket_status = ticket_status.decrypt_ticket) :
    (o.decrypt_session_ticket_rc = 0 →
      s2n_conn_set_handshake_type mode auth o =
        ⟨NEGOTIATED, ticket_status.decrypt_ticket, false⟩) ∧
    (o.decrypt_session_ticket_rc ≠ 0 →
      (s2n_conn_set_handshake_type mode auth o).cache_lookup_performed = false ∧
      (o.encrypt_decrypt_key_available = 1 →
        (s2n_conn_set_handshake_type mode auth o).session_ticket_status =
          ticket_status.new_ticket ∧
        (s2n_conn_set_handshake_type mode auth o).handshake_type.testBit 5 = true) ∧
      (o.encrypt_decrypt_key_available ≠ 1 →
        (s2n_conn_set_handshake_type mode auth o).session_ticket_status =
          ticket_status.decrypt_ticket ∧
        (s2n_conn_set_handshake_type mode auth o).handshake_type.testBit 5 =
          false)) := by
  refine ⟨fun h0 => ?_, fun h0 => ⟨?_, fun hk => ⟨?_, ?_⟩, fun hk => ⟨?_, ?_⟩⟩⟩
  · simp [s2n_conn_set_handshake_type, h1, h2, h0]
  · simp [s2n_conn_set_handshake_type, h1, h2, h0]
  · simp [s2n_conn_set_handshake_type, h1, h2, h0, hk]
  · simp only [s2n_conn_set_handshake_type, h1, h2, if_pos rfl, if_true]
    rw [if_neg h0, if_pos hk]
    exact skip_cache_tail_testBit_five mode auth o _ (by decide)
  · simp [s2n_conn_set_handshake_type, h1, h2, h0, hk]
  · simp only [s2n_conn_set_handshake_type, h1, h2, if_pos rfl, if_true]
    rw [if_neg h0, if_neg hk]
    exact skip_cache_tail_testBit_five_false mode auth o _ (by decide)

/-- Witness for `set_handshake_type_ticket_path`: both decrypt outcomes and,
on decrypt failure, both encrypt-decrypt-key outcomes at concrete oracles. -/
theorem set_handshake_type_ticket_path_witness :
    s2n_conn_set_handshake_type s2n_mode.server s2n_cert_auth_type.auth_none
        ⟨true, ticket_status.decrypt_ticket, 0, 1, true, 0, false, true, true, false⟩ =
      ⟨NEGOTIATED, ticket_status.decrypt_ticket, false⟩ ∧
    (s2n_conn_set_handshake_type s2n_mode.server s2n_cert_auth_type.auth_none
        ⟨true, ticket_status.decrypt_ticket, -1, 1, true, 0, false, false, false, false⟩).cache_lookup_performed =
      false ∧
    (s2n_conn_set_handshake_type s2n_mode.server s2n_cert_auth_type.auth_none
        ⟨true, ticket_status.decrypt_ticket, -1, 1, true, 0, false, false, false, false⟩).handshake_type.testBit
        5 = true ∧
    (s2n_conn_set_handshake_type s2n_mode.server s2n_cert_auth_type.auth_none
        ⟨true, ticket_status.decrypt_ticket, -1, 0, true, 0, false, false, false, false⟩).session_ticket_status =
      ticket_status.decrypt_ticket ∧
    (s2n_conn_set_handshake_type s2n_mode.server s2n_cert_auth_type.auth_none
        ⟨true, ticket_status.decrypt_ticket, -1, 0, true, 0, false, false, false, false⟩).handshake_type.testBit
        5 = false :=
  ⟨(set_handshake_type_ticket_path _ _ _ rfl rfl).1 rfl,
    ((set_handshake_type_ticket_path _ _ _ rfl rfl).2 (by decide)).1,
    ((((set_handshake_type_ticket_path s2n_mode.server s2n_cert_auth_type.auth_none
      ⟨true, ticket_status.decrypt_ticket, -1, 1, true, 0, false, false, false, false⟩
      rfl rfl).2 (by decide)).2.1 rfl).2),
    ((((set_handshake_type_ticket_path s2n_mode.server s2n_cert_auth_type.auth_none
      ⟨true, ticket_status.decrypt_ticket, -1, 0, true, 0, false, false, false, false⟩
      rfl rfl).2 (by decide)).2.2 (by decide)).1),
    ((((set_handshake_type_ticket_path s2n_mode.server s2n_cert_auth_type.auth_none
      ⟨true, ticket_status.decrypt_ticket, -1, 0, true, 0, false, false, false, false⟩
      rfl rfl).2 (by decide)).2.2 (by decide)).2)⟩

/-- C9: when `handshake_write_io` fails with a non-retryable error,
`s2n_negotiate` performs exactly one `handshake_read_io`; if that read fails
surfacing a peer alert, the alert's error state is returned; otherwise the
original write error is returned with the write-side `errno`, `s2n_errno` and
`s2n_debug_str` restored. -/
theorem negotiate_write_error_recovery (write_rc : Int) (gw : s2n_global_error)
    (read_rc : Int) (gr : s2n_global_error)
    (hw : write_rc < 0) (hb : gw.s2n_errno ≠ s2n_error.blocked) :
    (s2n_negotiate_writer_turn write_rc gw read_rc gr).1 =
        [io_action.write_io, io_action.read_io] ∧
    (read_rc < 0 ∧ gr.s2n_errno = s2n_error.alert →
      (s2n_negotiate_writer_turn write_rc gw read_rc gr).2 = some (-1, gr)) ∧
    (¬(read_rc < 0 ∧ gr.s2n_errno = s2n_error.alert) →
      (s2n_negotiate_writer_turn write_rc gw read_rc gr).2 =
        some (-1,
          { gr with
            errno := gw.errno
            s2n_errno := gw.s2n_errno
            s2n_debug_str := gw.s2n_debug_str })) := by
  unfold s2n_negotiate_writer_turn
  rw [if_pos ⟨hw, hb⟩]
  by_cases ha : read_rc < 0 ∧ gr.s2n_errno = s2n_error.alert
  · rw [if_pos ha]
    exact ⟨rfl, fun _ => rfl, fun hn => absurd ha hn⟩
  · rw [if_neg ha]
    exact ⟨rfl, fun h => absurd h ha, fun _ => rfl⟩

/-- Witness for `negotiate_write_error_recovery`: a concrete write failure
followed by a read that surfaces an alert, and one followed by a read that
does not. -/
theorem negotiate_write_error_recovery_witness :
    (s2n_negotiate_writer_turn (-1) ⟨5, s2n_error.other 3, 7⟩ (-1) ⟨0, s2n_error.alert, 9⟩).2 =
        some (-1, ⟨0, s2n_error.alert, 9⟩) ∧
    (s2n_negotiate_writer_turn (-1) ⟨5, s2n_error.other 3, 7⟩ 0 ⟨0, s2n_error.other 1, 9⟩).2 =
        some (-1, ⟨5, s2n_error.other 3, 7⟩) :=
  ⟨(negotiate_write_error_recovery (-1) ⟨5, s2n_error.other 3, 7⟩ (-1) ⟨0, s2n_error.alert, 9⟩
      (by decide) (by decide)).2.1 ⟨by decide, rfl⟩,
    by
      have h := (negotiate_write_error_recovery (-1) ⟨5, s2n_error.other 3, 7⟩ 0
        ⟨0, s2n_error.other 1, 9⟩ (by decide) (by decide)).2.2 (by decide)
      simpa using h⟩

/-- C10: a change-cipher-spec record with a one-byte payload is handed to the
handler of the *current* position and the state machine advances, with no
check that the current position's catalog row has record type
`TLS_CHANGE_CIPHER_SPEC` (note the absence of any hypothesis on
`ACTIVE_STATE conn`). -/
theorem ccs_record_no_position_check (handler_ok : message_type → List Nat → Bool)
    (conn : s2n_connection) (hio inp : List Nat) (hlen : inp.length = 1)
    (hok : handler_ok (ACTIVE_MESSAGE conn) (hio ++ inp) = true) :
    handshake_read_io handler_ok conn hio TLS_CHANGE_CIPHER_SPEC inp =
      .ok (s2n_advance_message
        { conn with
          events := conn.events ++ [hs_event.handler (ACTIVE_MESSAGE conn) (hio ++ inp)] },
        []) := by
  unfold handshake_read_io
  rw [if_neg (by decide), if_pos rfl, if_neg (by omega)]
  simp [hok]

/-- Witness for `ccs_record_no_position_check`: the INITIAL position 0
expects a handshake-type record (`CLIENT_HELLO`), yet a one-byte CCS record
is accepted and advances the machine. -/
theorem ccs_record_no_position_check_witness :
    (ACTIVE_STATE ⟨s2n_mode.server, s2n_cert_auth_type.auth_none, 0, 0, [], false⟩).record_type ≠
        TLS_CHANGE_CIPHER_SPEC ∧
    handshake_read_io (fun _ _ => true)
        ⟨s2n_mode.server, s2n_cert_auth_type.auth_none, 0, 0, [], false⟩ []
        TLS_CHANGE_CIPHER_SPEC [1] =
      .ok (⟨s2n_mode.server, s2n_cert_auth_type.auth_none, 0, 1,
        [hs_event.handler CLIENT_HELLO [1]], false⟩, []) :=
  ⟨by decide,
    by
      have h := ccs_record_no_position_check (fun _ _ => true)
        ⟨s2n_mode.server, s2n_cert_auth_type.auth_none, 0, 0, [], false⟩ [] [1] rfl rfl
      simpa [s2n_advance_message] using h⟩

end S2nHandshakeIo

namespace S2nHandshakeIo

open message_type

set_option maxRecDepth 40000 in
/-- If a position of a non-`CLIENT_AUTH` variant sequence expects the wire
type `SERVER_HELLO_DONE`, the same position of the `CLIENT_AUTH`-switched
sequence expects the wire type `CLIENT_CERT_REQ`. -/
theorem client_auth_switch_expected {ht mn : Nat} (hlt : ht < 128)
    (hca : ht &&& CLIENT_AUTH = 0)
    (hexp : (state_machine ((handshakes ht).getD mn CLIENT_HELLO)).msg_type =
      TLS_SERVER_HELLO_DONE) :
    (state_machine ((handshakes (ht ||| CLIENT_AUTH)).getD mn CLIENT_HELLO)).msg_type =
      TLS_CLIENT_CERT_REQ := by
  have hmn : mn < 16 := by
    by_contra hge
    push_neg at hge
    have hd : (handshakes ht).getD mn CLIENT_HELLO = CLIENT_HELLO := by
      rw [List.getD_eq_getElem?_getD,
        List.getElem?_eq_none (le_trans (handshakes_length_le ht) hge)]
      rfl
    rw [hd] at hexp
    exact absurd hexp (by decide)
  exact (by decide : ∀ x : Fin 128, ∀ m : Fin 16, (x : Nat) &&& CLIENT_AUTH = 0 →
      (state_machine ((handshakes (x : Nat)).getD (m : Nat) CLIENT_HELLO)).msg_type =
        TLS_SERVER_HELLO_DONE →
      (state_machine ((handshakes ((x : Nat) ||| CLIENT_AUTH)).getD (m : Nat)
        CLIENT_HELLO)).msg_type = TLS_CLIENT_CERT_REQ)
    ⟨ht, hlt⟩ ⟨mn, hmn⟩ hca hexp

/-- Or-ing a mask into a bitset makes the mask's bits set. -/
theorem or_and_self_eq (a b : Nat) : (a ||| b) &&& b = b := by
  apply Nat.eq_of_testBit_eq
  intro i
  simp only [Nat.testBit_or, Nat.testBit_and]
  cases h : b.testBit i <;> simp [h]

/-- C6: on the client side with optional client auth, when a complete message
of wire type `CLIENT_CERT_REQ` arrives while the current position expects
`SERVER_HELLO_DONE`, `handshake_read_io`'s per-message block adds the
`CLIENT_AUTH` flag, the switched variant sequence expects `CLIENT_CERT_REQ`
at the very same message number, and the message passes the type check and is
accepted (handler invoked, hashes updated, state machine advanced). -/
theorem optional_client_auth_upgrade (handler_ok : message_type → List Nat → Bool)
    (conn : s2n_connection) (full : List Nat)
    (h1 : conn.mode = s2n_mode.client)
    (h2 : conn.client_cert_auth_type = s2n_cert_auth_type.auth_optional)
    (h3 : conn.handshake_type < 128)
    (h4 : conn.handshake_type &&& CLIENT_AUTH = 0)
    (h5 : EXPECTED_MESSAGE_TYPE conn = TLS_SERVER_HELLO_DONE)
    (h6 : handler_ok
      (ACTIVE_MESSAGE { conn with handshake_type := conn.handshake_type ||| CLIENT_AUTH })
      (full.drop TLS_HANDSHAKE_HEADER_LENGTH) = true) :
    (conn.handshake_type ||| CLIENT_AUTH) &&& CLIENT_AUTH = CLIENT_AUTH ∧
    EXPECTED_MESSAGE_TYPE { conn with handshake_type := conn.handshake_type ||| CLIENT_AUTH } =
      TLS_CLIENT_CERT_REQ ∧
    s2n_read_message_step handler_ok conn TLS_CLIENT_CERT_REQ full =
      .ok (s2n_advance_message
        { conn with
          handshake_type := conn.handshake_type ||| CLIENT_AUTH
          events := conn.events ++
            [hs_event.handler
              (ACTIVE_MESSAGE
                { conn with handshake_type := conn.handshake_type ||| CLIENT_AUTH })
              (full.drop TLS_HANDSHAKE_HEADER_LENGTH),
             hs_event.hash full] }) := by
  have hexp' : EXPECTED_MESSAGE_TYPE
      { conn with handshake_type := conn.handshake_type ||| CLIENT_AUTH } =
      TLS_CLIENT_CERT_REQ := client_auth_switch_expected h3 h4 h5
  refine ⟨or_and_self_eq _ _, hexp', ?_⟩
  have hexp2 := hexp'
  have h62 := h6
  simp only [h1, h2] at hexp2 h62
  simp [s2n_read_message_step, s2n_read_message_client_auth_repair,
    s2n_read_message_ocsp_repair, h1, h2, h5, hexp2, h62, TLS_CLIENT_CERT_REQ,
    TLS_SERVER_CERT_STATUS, TLS_SERVER_HELLO_DONE]

/-- Witness for `optional_client_auth_upgrade`: a client on the plain full
handshake (`NEGOTIATED|FULL_HANDSHAKE`, position 3 expecting
`SERVER_HELLO_DONE`) receiving a zero-body `CLIENT_CERT_REQ`. -/
theorem optional_client_auth_upgrade_witness :
    s2n_read_message_step (fun _ _ => true)
        ⟨s2n_mode.client, s2n_cert_auth_type.auth_optional, 3, 3, [], false⟩
        TLS_CLIENT_CERT_REQ [13, 0, 0, 0] =
      .ok ⟨s2n_mode.client, s2n_cert_auth_type.auth_optional, 19, 4,
        [hs_event.handler SERVER_CERT_REQ [], hs_event.hash [13, 0, 0, 0]], false⟩ := by
  have h := (optional_client_auth_upgrade (fun _ _ => true)
    ⟨s2n_mode.client, s2n_cert_auth_type.auth_optional, 3, 3, [], false⟩
    [13, 0, 0, 0] rfl rfl (by decide) (by decide) (by decide) rfl).2.2
  simpa [s2n_advance_message, ACTIVE_MESSAGE] using h

/-- The parsed header fields only read the first four buffered bytes. -/
theorem parsed_length_take_four (l : List Nat) : parsed_length (l.take 4) = parsed_length l := by
  simp [parsed_length, List.getD_eq_getElem?_getD, List.getElem?_take_of_lt,
    (by decide : (1 : Nat) < 4), (by decide : (2 : Nat) < 4), (by decide : (3 : Nat) < 4)]

/-- C7: an inbound handshake message whose 4-byte header declares a body
length above `S2N_MAXIMUM_HANDSHAKE_MESSAGE_LENGTH` makes the read path fail
with `BAD_MESSAGE`, with the connection unchanged — in particular no handler
event was recorded. -/
theorem oversize_rejected (handler_ok : message_type → List Nat → Bool)
    (conn : s2n_connection) (inp : List Nat) (hlen : 4 ≤ inp.length)
    (hbig : S2N_MAXIMUM_HANDSHAKE_MESSAGE_LENGTH < parsed_length inp) :
    handshake_read_io handler_ok conn [] TLS_HANDSHAKE inp =
      .error (.bad_message, conn) := by
  have hne : inp ≠ [] := by
    intro h
    rw [h] at hlen
    simp at hlen
  have hfill : rf_fill_header [] inp = (inp.take 4, inp.drop 4) := by
    simp [rf_fill_header, TLS_HANDSHAKE_HEADER_LENGTH]
  have hrf : read_full_handshake_message [] inp = .oversize := by
    unfold read_full_handshake_message
    rw [hfill]
    unfold rf_after_header
    rw [if_neg (by
      simp only [List.length_take, TLS_HANDSHAKE_HEADER_LENGTH]
      omega)]
    rw [if_pos (by simpa [parsed_length_take_four] using hbig)]
  unfold handshake_read_io
  rw [if_neg (by decide), if_neg (by decide),
    if_neg (by decide : ¬TLS_HANDSHAKE ≠ TLS_HANDSHAKE)]
  unfold handshake_messages_loop
  rw [if_neg hne, hrf]

/-- Witness for `oversize_rejected`: a header declaring body length
65537 = `S2N_MAXIMUM_HANDSHAKE_MESSAGE_LENGTH + 1`. -/
theorem oversize_rejected_witness :
    handshake_read_io (fun _ _ => true)
        ⟨s2n_mode.server, s2n_cert_auth_type.auth_none, 0, 0, [], false⟩ []
        TLS_HANDSHAKE [22, 1, 0, 1] =
      .error (.bad_message,
        ⟨s2n_mode.server, s2n_cert_auth_type.auth_none, 0, 0, [], false⟩) :=
  oversize_rejected (fun _ _ => true) _ [22, 1, 0, 1] (by decide) (by decide)

end S2nHandshakeIo

namespace S2nHandshakeIo

/-- The parsed body length only reads the first four bytes of the buffer. -/
theorem parsed_length_append {l₁ : List Nat} (l₂ : List Nat) (h : 4 ≤ l₁.length) :
    parsed_length (l₁ ++ l₂) = parsed_length l₁ := by
  simp only [parsed_length, List.getD_eq_getElem?_getD]
  rw [List.getElem?_append_left (by omega), List.getElem?_append_left (by omega),
    List.getElem?_append_left (by omega)]

/-- The parsed wire type only reads the first byte of the buffer. -/
theorem parsed_message_type_append {l₁ : List Nat} (l₂ : List Nat) (h : 4 ≤ l₁.length) :
    parsed_message_type (l₁ ++ l₂) = parsed_message_type l₁ := by
  simp only [parsed_message_type, List.getD_eq_getElem?_getD]
  rw [List.getElem?_append_left (by omega)]

/-- The parsed wire type only reads the first four buffered bytes. -/
theorem parsed_message_type_take_four (l : List Nat) :
    parsed_message_type (l.take 4) = parsed_message_type l := by
  simp [parsed_message_type, List.getD_eq_getElem?_getD, List.getElem?_take_of_lt,
    (by decide : (0 : Nat) < 4)]

/-- The body phase of `read_full_handshake_message` behaves like the
single-stream view `rfm` of the concatenated bytes, for any buffer holding at
least the header whose buffered body does not exceed the parsed length. -/
theorem rf_after_header_eq_rfm {h : List Nat} (r : List Nat) (hlen : 4 ≤ h.length)
    (hbb : h.length - 4 ≤ parsed_length h) :
    rf_after_header h r = rfm (h ++ r) := by
  have hplen : parsed_length (h ++ r) = parsed_length h := parsed_length_append r hlen
  have hpmt : parsed_message_type (h ++ r) = parsed_message_type h :=
    parsed_message_type_append r hlen
  unfold rf_after_header rfm
  dsimp only
  rw [hplen, hpmt,
    if_neg (show ¬h.length < TLS_HANDSHAKE_HEADER_LENGTH by
      simp only [TLS_HANDSHAKE_HEADER_LENGTH]
      omega),
    if_neg (show ¬(h ++ r).length < TLS_HANDSHAKE_HEADER_LENGTH by
      simp only [TLS_HANDSHAKE_HEADER_LENGTH, List.length_append]
      omega)]
  by_cases hmax : S2N_MAXIMUM_HANDSHAKE_MESSAGE_LENGTH < parsed_length h
  · rw [if_pos hmax, if_pos hmax]
  · rw [if_neg hmax, if_neg hmax]
    have hlt : parsed_length h ≤ 65536 := by
      simpa [S2N_MAXIMUM_HANDSHAKE_MESSAGE_LENGTH] using hmax
    have hmod : (parsed_length h + 2 ^ 32 - (h.length - TLS_HANDSHAKE_HEADER_LENGTH)) %
        2 ^ 32 = parsed_length h - (h.length - 4) := by
      simp only [TLS_HANDSHAKE_HEADER_LENGTH]
      omega
    rw [hmod]
    by_cases hcomp : parsed_length h ≤ (h ++ r).length - TLS_HANDSHAKE_HEADER_LENGTH
    · have hcomp' : parsed_length h - (h.length - 4) ≤ r.length := by
        simp only [TLS_HANDSHAKE_HEADER_LENGTH, List.length_append] at hcomp
        omega
      have h1 : h ++ r.take (min (parsed_length h - (h.length - 4)) r.length) =
          (h ++ r).take (TLS_HANDSHAKE_HEADER_LENGTH + parsed_length h) := by
        rw [List.take_append_eq_append_take,
          List.take_of_length_le (show h.length ≤ TLS_HANDSHAKE_HEADER_LENGTH +
            parsed_length h by simp only [TLS_HANDSHAKE_HEADER_LENGTH]; omega)]
        congr 1
        congr 1
        simp only [TLS_HANDSHAKE_HEADER_LENGTH]
        omega
      have h2 : r.drop (min (parsed_length h - (h.length - 4)) r.length) =
          (h ++ r).drop (TLS_HANDSHAKE_HEADER_LENGTH + parsed_length h) := by
        rw [List.drop_append_eq_append_drop,
          List.drop_eq_nil_of_le (show h.length ≤ TLS_HANDSHAKE_HEADER_LENGTH +
            parsed_length h by simp only [TLS_HANDSHAKE_HEADER_LENGTH]; omega),
          List.nil_append]
        congr 1
        simp only [TLS_HANDSHAKE_HEADER_LENGTH]
        omega
      rw [if_pos (show (h ++ r.take (min (parsed_length h - (h.length - 4))
            r.length)).length - TLS_HANDSHAKE_HEADER_LENGTH = parsed_length h by
          simp only [List.length_append, List.length_take, TLS_HANDSHAKE_HEADER_LENGTH]
          omega),
        if_pos hcomp, h1, h2]
    · have hcomp' : r.length < parsed_length h - (h.length - 4) := by
        simp only [TLS_HANDSHAKE_HEADER_LENGTH, List.length_append] at hcomp
        omega
      have h3 : h ++ r.take (min (parsed_length h - (h.length - 4)) r.length) = h ++ r := by
        rw [min_eq_right (by omega), List.take_length]
      rw [if_neg (show ¬(h ++ r.take (min (parsed_length h - (h.length - 4))
            r.length)).length - TLS_HANDSHAKE_HEADER_LENGTH = parsed_length h by
          simp only [List.length_append, List.length_take, TLS_HANDSHAKE_HEADER_LENGTH]
          omega),
        if_neg hcomp, h3]

/-- The bridge: on a well-formed buffer, `read_full_handshake_message`
computes the single-stream view `rfm` of the concatenation of the buffer and
the record bytes. -/
theorem read_full_eq_rfm {hio : List Nat} (a : List Nat) (hwf : hio_wf hio) :
    read_full_handshake_message hio a = rfm (hio ++ a) := by
  by_cases hc : hio.length < 4
  · have hfill : rf_fill_header hio a =
        (hio ++ a.take (4 - hio.length), a.drop (4 - hio.length)) := by
      simp [rf_fill_header, TLS_HANDSHAKE_HEADER_LENGTH, hc]
    unfold read_full_handshake_message
    rw [hfill]
    by_cases hlen : hio.length + a.length < 4
    · have h1 : a.take (4 - hio.length) = a := List.take_of_length_le (by omega)
      have h2 : a.drop (4 - hio.length) = [] := List.drop_eq_nil_of_le (by omega)
      rw [h1, h2]
      unfold rf_after_header rfm
      rw [if_pos (by simp only [TLS_HANDSHAKE_HEADER_LENGTH, List.length_append]; omega),
        if_pos (by simp only [TLS_HANDSHAKE_HEADER_LENGTH, List.length_append]; omega)]
    · push_neg at hlen
      have h1 : hio ++ a.take (4 - hio.length) = (hio ++ a).take 4 := by
        rw [List.take_append_eq_append_take,
          List.take_of_length_le (show hio.length ≤ 4 by omega)]
      have h2 : a.drop (4 - hio.length) = (hio ++ a).drop 4 := by
        rw [List.drop_append_eq_append_drop,
          List.drop_eq_nil_of_le (show hio.length ≤ 4 by omega), List.nil_append]
      rw [h1, h2]
      have hb := rf_after_header_eq_rfm (h := (hio ++ a).take 4) ((hio ++ a).drop 4)
        (by simp only [List.length_take, List.length_append]; omega)
        (by simp only [List.length_take, List.length_append]; omega)
      rw [hb, List.take_append_drop]
  · push_neg at hc
    rcases hwf with hbad | hwf
    · exfalso
      simp only [TLS_HANDSHAKE_HEADER_LENGTH] at hbad
      omega
    · have hfill : rf_fill_header hio a = (hio, a) := by
        unfold rf_fill_header
        rw [if_neg (by simp only [TLS_HANDSHAKE_HEADER_LENGTH]; omega)]
      unfold read_full_handshake_message
      rw [hfill]
      dsimp only
      exact rf_after_header_eq_rfm a hc (by
        simp only [TLS_HANDSHAKE_HEADER_LENGTH] at hwf
        omega)

end S2nHandshakeIo

namespace S2nHandshakeIo

/-- The empty reassembly buffer is well formed. -/
theorem hio_wf_nil : hio_wf [] := Or.inl (by decide)

/-- An incomplete single-stream view returns the stream itself, and that
stream is a well-formed carry-over buffer. -/
theorem rfm_need_more {s s' : List Nat} (h : rfm s = .need_more s') :
    s' = s ∧ hio_wf s := by
  unfold rfm at h
  split at h
  · rename_i h1
    cases h
    exact ⟨rfl, Or.inl h1⟩
  · rename_i h1
    split at h
    · cases h
    · rename_i h2
      split at h
      · cases h
      · rename_i h3
        cases h
        exact ⟨rfl, Or.inr ⟨Nat.not_lt.mp h2, Nat.not_le.mp h3⟩⟩

/-- Shape of a completed single-stream view. -/
theorem rfm_complete {s : List Nat} {t : Nat} {full rest : List Nat}
    (h : rfm s = .complete t full rest) :
    TLS_HANDSHAKE_HEADER_LENGTH ≤ s.length ∧
      parsed_length s ≤ S2N_MAXIMUM_HANDSHAKE_MESSAGE_LENGTH ∧
      parsed_length s ≤ s.length - TLS_HANDSHAKE_HEADER_LENGTH ∧
      t = parsed_message_type s ∧
      full = s.take (TLS_HANDSHAKE_HEADER_LENGTH + parsed_length s) ∧
      rest = s.drop (TLS_HANDSHAKE_HEADER_LENGTH + parsed_length s) := by
  unfold rfm at h
  split at h
  · cases h
  · rename_i h1
    split at h
    · cases h
    · rename_i h2
      split at h
      · rename_i h3
        cases h
        exact ⟨Nat.not_lt.mp h1, Nat.not_lt.mp h2, h3, rfl, rfl, rfl⟩
      · cases h

/-- An oversize single-stream view means the parsed length broke the bound. -/
theorem rfm_oversize {s : List Nat} (h : rfm s = .oversize) :
    TLS_HANDSHAKE_HEADER_LENGTH ≤ s.length ∧
      S2N_MAXIMUM_HANDSHAKE_MESSAGE_LENGTH < parsed_length s := by
  unfold rfm at h
  split at h
  · cases h
  · rename_i h1
    split at h
    · rename_i h2
      exact ⟨Nat.not_lt.mp h1, h2⟩
    · split at h
      · cases h
      · cases h

/-- Reading the same record with more data appended behaves, after a
`need_more`, like reading the appended data against the carried-over
buffer. -/
theorem read_full_append_need_more {hio a b h' : List Nat} (hwf : hio_wf hio)
    (hr : read_full_handshake_message hio a = .need_more h') :
    h' = hio ++ a ∧ hio_wf h' ∧
      read_full_handshake_message hio (a ++ b) = read_full_handshake_message h' b := by
  rw [read_full_eq_rfm a hwf] at hr
  obtain ⟨he, hwf'⟩ := rfm_need_more hr
  subst he
  exact ⟨rfl, hwf',
    by rw [read_full_eq_rfm (a ++ b) hwf, read_full_eq_rfm b hwf', List.append_assoc]⟩

/-- A completed reassembly is unaffected by extra appended data, and the
consumed bytes are conserved: buffer plus record equals message plus rest. -/
theorem read_full_append_complete {hio a b : List Nat} {t : Nat} {full rest : List Nat}
    (hwf : hio_wf hio)
    (hr : read_full_handshake_message hio a = .complete t full rest) :
    read_full_handshake_message hio (a ++ b) = .complete t full (rest ++ b) ∧
      hio ++ a = full ++ rest := by
  rw [read_full_eq_rfm a hwf] at hr
  obtain ⟨h4, hmaxle, hlen, ht, hfull, hrest⟩ := rfm_complete hr
  have hcons : hio ++ a = full ++ rest := by
    rw [hfull, hrest, List.take_append_drop]
  refine ⟨?_, hcons⟩
  rw [read_full_eq_rfm (a ++ b) hwf, ← List.append_assoc]
  unfold rfm
  rw [if_neg (show ¬(hio ++ a ++ b).length < TLS_HANDSHAKE_HEADER_LENGTH by
      simp only [List.length_append]
      simp only [List.length_append] at h4
      omega),
    parsed_length_append _ (by
      simpa only [TLS_HANDSHAKE_HEADER_LENGTH] using h4),
    parsed_message_type_append _ (by
      simpa only [TLS_HANDSHAKE_HEADER_LENGTH] using h4),
    if_neg (Nat.not_lt.mpr hmaxle),
    if_pos (show parsed_length (hio ++ a) ≤
        ((hio ++ a) ++ b).length - TLS_HANDSHAKE_HEADER_LENGTH by
      simp only [List.length_append]
      simp only [TLS_HANDSHAKE_HEADER_LENGTH] at hlen ⊢
      simp only [List.length_append] at hlen
      omega)]
  rw [ht, hfull, hrest]
  have htake : ((hio ++ a) ++ b).take
      (TLS_HANDSHAKE_HEADER_LENGTH + parsed_length (hio ++ a)) =
      (hio ++ a).take (TLS_HANDSHAKE_HEADER_LENGTH + parsed_length (hio ++ a)) :=
    List.take_append_of_le_length (by
      simp only [TLS_HANDSHAKE_HEADER_LENGTH] at hlen h4 ⊢
      omega)
  have hdrop : ((hio ++ a) ++ b).drop
      (TLS_HANDSHAKE_HEADER_LENGTH + parsed_length (hio ++ a)) =
      (hio ++ a).drop (TLS_HANDSHAKE_HEADER_LENGTH + parsed_length (hio ++ a)) ++ b := by
    rw [List.drop_append_eq_append_drop,
      Nat.sub_eq_zero_of_le (by
        simp only [TLS_HANDSHAKE_HEADER_LENGTH] at hlen h4 ⊢
        omega),
      List.drop_zero]
  rw [htake, hdrop]

/-- A completed reassembly consumes at least one byte of a non-empty record
when the buffer is well formed. -/
theorem read_full_complete_length {hio a : List Nat} {t : Nat} {full rest : List Nat}
    (hwf : hio_wf hio) (ha : a ≠ [])
    (hr : read_full_handshake_message hio a = .complete t full rest) :
    rest.length < a.length := by
  rw [read_full_eq_rfm a hwf] at hr
  obtain ⟨h4, _, hlen, _, _, hrest⟩ := rfm_complete hr
  subst hrest
  have hpos : 0 < a.length := List.length_pos.mpr ha
  by_cases hle : hio.length < 4
  · simp only [List.length_drop, List.length_append, TLS_HANDSHAKE_HEADER_LENGTH]
    omega
  · push_neg at hle
    have heq : parsed_length (hio ++ a) = parsed_length hio := parsed_length_append a hle
    rcases hwf with h | h
    · exfalso
      simp only [TLS_HANDSHAKE_HEADER_LENGTH] at h
      omega
    · simp only [TLS_HANDSHAKE_HEADER_LENGTH] at h
      simp only [List.length_drop, List.length_append, TLS_HANDSHAKE_HEADER_LENGTH, heq]
      omega

/-- On an empty record a well-formed buffer always reports `need_more`
unchanged. -/
theorem read_full_nil_of_wf {hio : List Nat} (hwf : hio_wf hio) :
    read_full_handshake_message hio [] = .need_more hio := by
  rw [read_full_eq_rfm [] hwf, List.append_nil]
  unfold rfm
  by_cases h4 : hio.length < TLS_HANDSHAKE_HEADER_LENGTH
  · rw [if_pos h4]
  · rcases hwf with h | h
    · exact absurd h h4
    · rw [if_neg h4, if_neg (Nat.not_lt.mpr h.1), if_neg (Nat.not_le.mpr h.2)]

end S2nHandshakeIo

namespace S2nHandshakeIo

/-- Unfolding lemma for `handshake_messages_rest` with a plain (non-dependent)
match on the reassembly result. -/
theorem handshake_messages_rest_unfold (handler_ok : message_type → List Nat → Bool)
    (conn : s2n_connection) (inp : List Nat) :
    handshake_messages_rest handler_ok conn inp =
      if inp = [] then .ok (conn, []) else
      match read_full_handshake_message [] inp with
      | .oversize => .error (.bad_message, conn)
      | .need_more hio' => .ok (conn, hio')
      | .complete t full inp' =>
        match s2n_read_message_step handler_ok conn t full with
        | .error e => .error e
        | .ok conn' => handshake_messages_rest handler_ok conn' inp' := by
  by_cases hi : inp = []
  · subst hi
    rw [handshake_messages_rest]
    rfl
  · rw [handshake_messages_rest, if_neg hi, if_neg hi]
    split <;> rename_i heq <;> rw [heq]

end S2nHandshakeIo

namespace S2nHandshakeIo

/-- An oversize reassembly failure is unaffected by extra appended data. -/
theorem read_full_append_oversize {hio a : List Nat} (b : List Nat) (hwf : hio_wf hio)
    (hr : read_full_handshake_message hio a = .oversize) :
    read_full_handshake_message hio (a ++ b) = .oversize := by
  rw [read_full_eq_rfm a hwf] at hr
  obtain ⟨h4, hmax⟩ := rfm_oversize hr
  rw [read_full_eq_rfm (a ++ b) hwf, ← List.append_assoc]
  unfold rfm
  rw [if_neg (show ¬(hio ++ a ++ b).length < TLS_HANDSHAKE_HEADER_LENGTH by
      simp only [List.length_append]
      simp only [List.length_append] at h4
      omega),
    parsed_length_append _ (by simpa only [TLS_HANDSHAKE_HEADER_LENGTH] using h4),
    if_pos hmax]

/-- The `while` loop of `handshake_read_io` unfolds to one reassembly step
for every record, the empty record included, when the carried-over buffer is
well formed (an empty record leaves a well-formed buffer untouched). -/
theorem handshake_messages_loop_unfold (handler_ok : message_type → List Nat → Bool)
    (conn : s2n_connection) (hio inp : List Nat) (hwf : hio_wf hio) :
    handshake_messages_loop handler_ok conn hio inp =
      match read_full_handshake_message hio inp with
      | .oversize => .error (.bad_message, conn)
      | .need_more hio' => .ok (conn, hio')
      | .complete t full inp' =>
        match s2n_read_message_step handler_ok conn t full with
        | .error e => .error e
        | .ok conn' => handshake_messages_rest handler_ok conn' inp' := by
  by_cases hi : inp = []
  · subst hi
    rw [read_full_nil_of_wf hwf]
    unfold handshake_messages_loop
    rw [if_pos rfl]
  · unfold handshake_messages_loop
    rw [if_neg hi]

/-- On a wiped buffer, the first loop iteration and the rest of the loop
agree. -/
theorem handshake_messages_rest_eq_loop (handler_ok : message_type → List Nat → Bool)
    (conn : s2n_connection) (inp : List Nat) :
    handshake_messages_rest handler_ok conn inp =
      handshake_messages_loop handler_ok conn [] inp := by
  rw [handshake_messages_rest_unfold,
    handshake_messages_loop_unfold handler_ok conn [] inp hio_wf_nil]
  by_cases hi : inp = []
  · subst hi
    rw [if_pos rfl, read_full_nil_of_wf hio_wf_nil]
  · rw [if_neg hi]

end S2nHandshakeIo

namespace S2nHandshakeIo

/-- Splitting the record bytes after the loop's tail behaves like running the
tail on the first part and continuing the loop on the second. -/
theorem handshake_messages_rest_append (handler_ok : message_type → List Nat → Bool) :
    ∀ (n : Nat) (conn : s2n_connection) (a b : List Nat), a.length ≤ n →
      handshake_messages_rest handler_ok conn (a ++ b) =
        match handshake_messages_rest handler_ok conn a with
        | .error e => .error e
        | .ok (c, h) => handshake_messages_loop handler_ok c h b := by
  intro n
  induction n with
  | zero =>
    intro conn a b hle
    have ha : a = [] := List.eq_nil_of_length_eq_zero (Nat.le_zero.mp hle)
    subst ha
    rw [List.nil_append, handshake_messages_rest_eq_loop,
      show handshake_messages_rest handler_ok conn [] = .ok (conn, []) from by
        rw [handshake_messages_rest_unfold]
        rfl]
  | succ n ih =>
    intro conn a b hle
    by_cases ha : a = []
    · subst ha
      rw [List.nil_append, handshake_messages_rest_eq_loop,
        show handshake_messages_rest handler_ok conn [] = .ok (conn, []) from by
          rw [handshake_messages_rest_unfold]
          rfl]
    · rw [handshake_messages_rest_unfold handler_ok conn (a ++ b),
        handshake_messages_rest_unfold handler_ok conn a,
        if_neg (by simp [ha]), if_neg ha]
      cases hfr : read_full_handshake_message [] a with
      | oversize => simp only [read_full_append_oversize b hio_wf_nil hfr]
      | need_more h' =>
        obtain ⟨he, hwf', hcomp⟩ := read_full_append_need_more (b := b) hio_wf_nil hfr
        rw [hcomp, ← handshake_messages_loop_unfold handler_ok conn h' b hwf']
      | complete t full a' =>
        obtain ⟨hcomp, hcons⟩ := read_full_append_complete (b := b) hio_wf_nil hfr
        have hlen' : a'.length ≤ n := by
          have := read_full_complete_length hio_wf_nil ha hfr
          omega
        simp only [hcomp]
        rcases hstep : s2n_read_message_step handler_ok conn t full with e | conn'
        · simp only [hstep]
        · simp only [hstep]
          exact ih conn' a' b hlen'

/-- C3's core: the message loop commutes with splitting the record bytes at
any boundary, for any well-formed carried-over buffer. -/
theorem handshake_messages_loop_append (handler_ok : message_type → List Nat → Bool)
    (conn : s2n_connection) (hio a b : List Nat) (hwf : hio_wf hio) :
    handshake_messages_loop handler_ok conn hio (a ++ b) =
      match handshake_messages_loop handler_ok conn hio a with
      | .error e => .error e
      | .ok (c, h) => handshake_messages_loop handler_ok c h b := by
  rw [handshake_messages_loop_unfold handler_ok conn hio (a ++ b) hwf,
    handshake_messages_loop_unfold handler_ok conn hio a hwf]
  cases hfr : read_full_handshake_message hio a with
  | oversize => simp only [read_full_append_oversize b hwf hfr]
  | need_more h' =>
    obtain ⟨he, hwf', hcomp⟩ := read_full_append_need_more (b := b) hwf hfr
    rw [hcomp, ← handshake_messages_loop_unfold handler_ok conn h' b hwf']
  | complete t full a' =>
    obtain ⟨hcomp, hcons⟩ := read_full_append_complete (b := b) hwf hfr
    simp only [hcomp]
    rcases hstep : s2n_read_message_step handler_ok conn t full with e | conn'
    · simp only [hstep]
    · simp only [hstep]
      exact handshake_messages_rest_append handler_ok a'.length conn' a' b le_rfl

end S2nHandshakeIo

namespace S2nHandshakeIo

/-- The carried-over buffer left by the loop's tail is well formed. -/
theorem handshake_messages_rest_wf (handler_ok : message_type → List Nat → Bool) :
    ∀ (n : Nat) (conn : s2n_connection) (inp : List Nat) (c : s2n_connection)
      (h : List Nat), inp.length ≤ n →
      handshake_messages_rest handler_ok conn inp = .ok (c, h) → hio_wf h := by
  intro n
  induction n with
  | zero =>
    intro conn inp c h hle hres
    have hi : inp = [] := List.eq_nil_of_length_eq_zero (Nat.le_zero.mp hle)
    subst hi
    rw [handshake_messages_rest_unfold, if_pos rfl] at hres
    cases hres
    exact hio_wf_nil
  | succ n ih =>
    intro conn inp c h hle hres
    by_cases hi : inp = []
    · subst hi
      rw [handshake_messages_rest_unfold, if_pos rfl] at hres
      cases hres
      exact hio_wf_nil
    · rw [handshake_messages_rest_unfold, if_neg hi] at hres
      split at hres
      · exact Except.noConfusion hres
      · rename_i h' heq
        cases hres
        rw [read_full_eq_rfm inp hio_wf_nil, List.nil_append] at heq
        obtain ⟨he, hwfs⟩ := rfm_need_more heq
        subst he
        exact hwfs
      · rename_i t full inp' heq
        split at hres
        · exact Except.noConfusion hres
        · rename_i conn' hstep
          have hlen' : inp'.length ≤ n := by
            have := read_full_complete_length hio_wf_nil hi heq
            omega
          exact ih conn' inp' c h hlen' hres

/-- The carried-over buffer left by the whole loop is well formed. -/
theorem handshake_messages_loop_wf (handler_ok : message_type → List Nat → Bool)
    (conn : s2n_connection) (hio inp : List Nat) (c : s2n_connection) (h : List Nat)
    (hwf : hio_wf hio)
    (hres : handshake_messages_loop handler_ok conn hio inp = .ok (c, h)) : hio_wf h := by
  rw [handshake_messages_loop_unfold handler_ok conn hio inp hwf] at hres
  split at hres
  · exact Except.noConfusion hres
  · rename_i h' heq
    cases hres
    rw [read_full_eq_rfm inp hwf] at heq
    obtain ⟨he, hwfs⟩ := rfm_need_more heq
    subst he
    exact hwfs
  · rename_i t full inp' heq
    split at hres
    · exact Except.noConfusion hres
    · rename_i conn' hstep
      exact handshake_messages_rest_wf handler_ok inp'.length conn' inp' c h le_rfl hres

end S2nHandshakeIo

namespace S2nHandshakeIo

/-- `hash_transcript` distributes over appended event lists. -/
theorem hash_transcript_append (a b : List hs_event) :
    hash_transcript (a ++ b) = hash_transcript a ++ hash_transcript b := by
  induction a with
  | nil => simp [hash_transcript]
  | cons e a ih => cases e <;> simp [hash_transcript, ih]

/-- `wire_bytes` distributes over appended event lists. -/
theorem wire_bytes_append (a b : List hs_event) :
    wire_bytes (a ++ b) = wire_bytes a ++ wire_bytes b := by
  induction a with
  | nil => simp [wire_bytes]
  | cons e a ih => cases e <;> simp [wire_bytes, ih]

/-- The optional-client-auth repair never touches the event trace. -/
theorem s2n_read_message_client_auth_repair_events (conn : s2n_connection) (a : Nat) :
    (s2n_read_message_client_auth_repair conn a).events = conn.events := by
  unfold s2n_read_message_client_auth_repair
  split <;> rfl

/-- The OCSP opt-out repair never touches the event trace. -/
theorem s2n_read_message_ocsp_repair_events (conn : s2n_connection) (a : Nat) :
    (s2n_read_message_ocsp_repair conn a).events = conn.events := by
  unfold s2n_read_message_ocsp_repair
  split <;> rfl

/-- A successful per-message block appends exactly one handler event followed
by one hash event carrying the full reassembled message bytes: the handler
runs strictly before the hash update, and the hash sees every byte of the
message, header included, exactly once. -/
theorem s2n_read_message_step_events (handler_ok : message_type → List Nat → Bool)
    (conn : s2n_connection) (t : Nat) (full : List Nat) (conn' : s2n_connection)
    (h : s2n_read_message_step handler_ok conn t full = .ok conn') :
    ∃ m, conn'.events = conn.events ++
      [hs_event.handler m (full.drop TLS_HANDSHAKE_HEADER_LENGTH), hs_event.hash full] := by
  unfold s2n_read_message_step at h
  dsimp only at h
  split at h
  · exact Except.noConfusion h
  · split at h
    · cases h
      refine ⟨ACTIVE_MESSAGE
        (s2n_read_message_ocsp_repair (s2n_read_message_client_auth_repair conn t) t), ?_⟩
      simp [s2n_advance_message, s2n_read_message_ocsp_repair_events,
        s2n_read_message_client_auth_repair_events]
    · exact Except.noConfusion h

/-- Successful per-message blocks extend the hash transcript by exactly the
message bytes. -/
theorem s2n_read_message_step_hash (handler_ok : message_type → List Nat → Bool)
    (conn : s2n_connection) (t : Nat) (full : List Nat) (conn' : s2n_connection)
    (h : s2n_read_message_step handler_ok conn t full = .ok conn') :
    hash_transcript conn'.events = hash_transcript conn.events ++ full := by
  obtain ⟨m, hm⟩ := s2n_read_message_step_events handler_ok conn t full conn' h
  rw [hm, hash_transcript_append]
  simp [hash_transcript]

end S2nHandshakeIo

namespace S2nHandshakeIo

/-- Byte conservation and hash bookkeeping for the loop's tail: the record
splits into the bytes of the completed messages (all of which were fed to
the transcript hashes, in order, exactly once) followed by the carried-over
buffer (not yet hashed). -/
theorem handshake_messages_rest_trace (handler_ok : message_type → List Nat → Bool) :
    ∀ (n : Nat) (conn : s2n_connection) (inp : List Nat) (c : s2n_connection)
      (h : List Nat), inp.length ≤ n →
      handshake_messages_rest handler_ok conn inp = .ok (c, h) →
      ∃ p, inp = p ++ h ∧
        hash_transcript c.events = hash_transcript conn.events ++ p := by
  intro n
  induction n with
  | zero =>
    intro conn inp c h hle hres
    have hi : inp = [] := List.eq_nil_of_length_eq_zero (Nat.le_zero.mp hle)
    subst hi
    rw [handshake_messages_rest_unfold, if_pos rfl] at hres
    cases hres
    exact ⟨[], rfl, by simp⟩
  | succ n ih =>
    intro conn inp c h hle hres
    by_cases hi : inp = []
    · subst hi
      rw [handshake_messages_rest_unfold, if_pos rfl] at hres
      cases hres
      exact ⟨[], rfl, by simp⟩
    · rw [handshake_messages_rest_unfold, if_neg hi] at hres
      split at hres
      · exact Except.noConfusion hres
      · rename_i h' heq
        cases hres
        rw [read_full_eq_rfm inp hio_wf_nil, List.nil_append] at heq
        obtain ⟨he, -⟩ := rfm_need_more heq
        subst he
        exact ⟨[], rfl, by simp⟩
      · rename_i t full inp' heq
        split at hres
        · exact Except.noConfusion hres
        · rename_i conn' hstep
          have hcons := (read_full_append_complete (b := []) hio_wf_nil heq).2
          rw [List.nil_append] at hcons
          have hlen' : inp'.length ≤ n := by
            have := read_full_complete_length hio_wf_nil hi heq
            omega
          obtain ⟨p', hp1, hp2⟩ := ih conn' inp' c h hlen' hres
          refine ⟨full ++ p', ?_, ?_⟩
          · rw [List.append_assoc, ← hp1]
            exact hcons
          · rw [hp2, s2n_read_message_step_hash handler_ok conn t full conn' hstep,
              List.append_assoc]

/-- Byte conservation and hash bookkeeping for the whole loop started on a
wiped buffer. -/
theorem handshake_messages_loop_trace (handler_ok : message_type → List Nat → Bool)
    (conn : s2n_connection) (inp : List Nat) (c : s2n_connection) (h : List Nat)
    (hres : handshake_messages_loop handler_ok conn [] inp = .ok (c, h)) :
    ∃ p, inp = p ++ h ∧
      hash_transcript c.events = hash_transcript conn.events ++ p := by
  rw [← handshake_messages_rest_eq_loop] at hres
  exact handshake_messages_rest_trace handler_ok inp.length conn inp c h le_rfl hres

/-- Reading a handshake record through `handshake_read_io` is the message
loop. -/
theorem handshake_read_io_handshake (handler_ok : message_type → List Nat → Bool)
    (conn : s2n_connection) (hio inp : List Nat) :
    handshake_read_io handler_ok conn hio TLS_HANDSHAKE inp =
      handshake_messages_loop handler_ok conn hio inp := by
  simp [handshake_read_io, TLS_HANDSHAKE, TLS_APPLICATION_DATA, TLS_CHANGE_CIPHER_SPEC]

/-- The record-fed read loop equals the message loop on the concatenated
bytes, for any well-formed carried-over buffer. -/
theorem negotiate_read_records_eq_loop (handler_ok : message_type → List Nat → Bool) :
    ∀ (recs : List (List Nat)) (conn : s2n_connection) (hio : List Nat), hio_wf hio →
      negotiate_read_records handler_ok conn hio recs =
        handshake_messages_loop handler_ok conn hio recs.join := by
  intro recs
  induction recs with
  | nil =>
    intro conn hio hwf
    rfl
  | cons r rs ih =>
    intro conn hio hwf
    show (match handshake_read_io handler_ok conn hio TLS_HANDSHAKE r with
      | .error e => .error e
      | .ok (conn', hio') => negotiate_read_records handler_ok conn' hio' rs) =
      handshake_messages_loop handler_ok conn hio (r :: rs).join
    rw [handshake_read_io_handshake,
      show (r :: rs).join = r ++ rs.join from rfl,
      handshake_messages_loop_append handler_ok conn hio r rs.join hwf]
    cases hr : handshake_messages_loop handler_ok conn hio r with
    | error e => rfl
    | ok ch =>
      obtain ⟨c, h⟩ := ch
      exact ih c h (handshake_messages_loop_wf handler_ok conn hio r c h hwf hr)

/-- C3: arbitrary fragmentation is transparent.  Feeding the same handshake
byte stream through the read path chunked into records at any byte
boundaries yields exactly the same result as the unfragmented stream: the
same `BAD_MESSAGE` / handler errors (with identical connection state at the
failure), and otherwise the identical final connection — in particular the
identical sequence of handler-invocation events with identical reassembled
payloads — and identical leftover reassembly buffer. -/
theorem fragmentation_transparent (handler_ok : message_type → List Nat → Bool)
    (conn : s2n_connection) (recs : List (List Nat)) :
    negotiate_read_records handler_ok conn [] recs =
      handshake_read_io handler_ok conn [] TLS_HANDSHAKE recs.join := by
  rw [handshake_read_io_handshake]
  exact negotiate_read_records_eq_loop handler_ok recs conn [] hio_wf_nil

end S2nHandshakeIo

namespace S2nHandshakeIo

/-- Concatenating the emitted fragments restores the populated `handshake.io`
buffer. -/
theorem handshake_fragments_join (maxp : Nat) (hm : 0 < maxp) :
    ∀ (n : Nat) (io : List Nat), io.length ≤ n →
      (handshake_fragments maxp io).join = io := by
  intro n
  induction n with
  | zero =>
    intro io hle
    have hi : io = [] := List.eq_nil_of_length_eq_zero (Nat.le_zero.mp hle)
    subst hi
    rw [handshake_fragments]
    simp
  | succ n ih =>
    intro io hle
    by_cases hio : io = []
    · subst hio
      rw [handshake_fragments]
      simp
    · rw [handshake_fragments, if_neg (not_or.mpr ⟨hio, by omega⟩)]
      have hlen : (io.drop maxp).length ≤ n := by
        simp only [List.length_drop]
        have : 0 < io.length := List.length_pos.mpr hio
        omega
      calc (io.take maxp :: handshake_fragments maxp (io.drop maxp)).join
          = io.take maxp ++ (handshake_fragments maxp (io.drop maxp)).join := by
            simp [List.join]
        _ = io.take maxp ++ io.drop maxp := by rw [ih (io.drop maxp) hlen]
        _ = io := List.take_append_drop maxp io

/-- The wire bytes recorded while emitting handshake fragments are exactly
their concatenation. -/
theorem write_frag_events_wire (frags : List (List Nat)) :
    wire_bytes (frags.flatMap fun f =>
      [hs_event.record_write f, hs_event.hash f]) = frags.join := by
  induction frags with
  | nil => simp [wire_bytes]
  | cons f fs ih =>
    rw [List.flatMap_cons, wire_bytes_append]
    simp [wire_bytes, ih, List.join]

/-- The bytes hashed while emitting handshake fragments are exactly their
concatenation: one `hash` event right after each fragment's record write. -/
theorem write_frag_events_hash (frags : List (List Nat)) :
    hash_transcript (frags.flatMap fun f =>
      [hs_event.record_write f, hs_event.hash f]) = frags.join := by
  induction frags with
  | nil => simp [hash_transcript]
  | cons f fs ih =>
    rw [List.flatMap_cons, hash_transcript_append]
    simp [hash_transcript, ih, List.join]

/-- `handshake_write_io` on a handshake-record position, in closed form. -/
theorem handshake_write_io_handshake_eq (write_body : message_type → List Nat)
    (maxp : Nat) (conn : s2n_connection)
    (hrt : (ACTIVE_STATE conn).record_type = TLS_HANDSHAKE) :
    handshake_write_io write_body maxp conn =
      (s2n_advance_message
        { conn with
          events := conn.events ++
            List.flatMap
              (handshake_fragments maxp
                (handshake_header (ACTIVE_STATE conn).msg_type
                  (write_body (ACTIVE_MESSAGE conn)).length ++
                  write_body (ACTIVE_MESSAGE conn)))
              (fun f => [hs_event.record_write f, hs_event.hash f]) },
        handshake_fragments maxp
          (handshake_header (ACTIVE_STATE conn).msg_type
            (write_body (ACTIVE_MESSAGE conn)).length ++
            write_body (ACTIVE_MESSAGE conn))) := by
  simp [handshake_write_io, hrt]

/-- C4: every handshake byte is fed through the transcript hash exactly once,
in wire order, and an inbound message's hash update happens only after its
handler ran.  (1) On the write side the emitted fragments reassemble to
header plus body, and the events appended by `handshake_write_io` extend the
wire bytes and the hashed bytes by exactly those fragment bytes, in order.
(2) For an inbound message, `s2n_read_message_step` appends exactly one
handler event followed by exactly one hash event carrying the full
header-plus-body bytes — the hash update is after the handler and happens
once.  (3) Across a whole record, the loop's accepted bytes (the record minus
the leftover reassembly buffer) are appended to the hashed-byte transcript
exactly once, in wire order. -/
theorem transcript_hash_once_per_byte
    (handler_ok : message_type → List Nat → Bool)
    (write_body : message_type → List Nat) :
    (∀ (maxp : Nat) (conn : s2n_connection), 0 < maxp →
      (ACTIVE_STATE conn).record_type = TLS_HANDSHAKE →
      (handshake_write_io write_body maxp conn).2.join =
          handshake_header (ACTIVE_STATE conn).msg_type
            (write_body (ACTIVE_MESSAGE conn)).length ++
            write_body (ACTIVE_MESSAGE conn) ∧
        wire_bytes (handshake_write_io write_body maxp conn).1.events =
          wire_bytes conn.events ++ (handshake_write_io write_body maxp conn).2.join ∧
        hash_transcript (handshake_write_io write_body maxp conn).1.events =
          hash_transcript conn.events ++
            (handshake_write_io write_body maxp conn).2.join) ∧
    (∀ (conn : s2n_connection) (t : Nat) (full : List Nat)
      (conn' : s2n_connection),
      s2n_read_message_step handler_ok conn t full = .ok conn' →
      ∃ m, conn'.events = conn.events ++
        [hs_event.handler m (full.drop TLS_HANDSHAKE_HEADER_LENGTH),
         hs_event.hash full]) ∧
    (∀ (conn : s2n_connection) (inp : List Nat) (c : s2n_connection)
      (h : List Nat),
      handshake_messages_loop handler_ok conn [] inp = .ok (c, h) →
      ∃ p, inp = p ++ h ∧
        hash_transcript c.events = hash_transcript conn.events ++ p) := by
  refine ⟨?_, ?_, ?_⟩
  · intro maxp conn hm hrt
    rw [handshake_write_io_handshake_eq write_body maxp conn hrt]
    refine ⟨?_, ?_, ?_⟩
    · exact handshake_fragments_join maxp hm _ _ le_rfl
    · dsimp [s2n_advance_message]
      rw [wire_bytes_append, write_frag_events_wire,
        handshake_fragments_join maxp hm _ _ le_rfl]
    · dsimp [s2n_advance_message]
      rw [hash_transcript_append, write_frag_events_hash,
        handshake_fragments_join maxp hm _ _ le_rfl]
  · intro conn t full conn' hstep
    exact s2n_read_message_step_events handler_ok conn t full conn' hstep
  · intro conn inp c h hres
    exact handshake_messages_loop_trace handler_ok conn inp c h hres

end S2nHandshakeIo

namespace S2nHandshakeIo

/-- Witness for the C4 theorem at concrete inputs: the writer at the
`SERVER_HELLO` position of the `NEGOTIATED` row emitting a 3-byte body in
2-byte fragments, and the reader consuming the 4-byte `SERVER_HELLO`
message `[2, 0, 0, 0]` both as a single step and through the record loop. -/
theorem transcript_hash_once_per_byte_witness :
    (0 : Nat) < 2 ∧
    (ACTIVE_STATE ⟨s2n_mode.server, s2n_cert_auth_type.auth_none, 1, 1, [],
      false⟩).record_type = TLS_HANDSHAKE ∧
    (handshake_write_io (fun _ => [7, 8, 9]) 2
      ⟨s2n_mode.server, s2n_cert_auth_type.auth_none, 1, 1, [],
        false⟩).2.join = [2, 0, 0, 3, 7, 8, 9] ∧
    s2n_read_message_step (fun _ _ => true)
      ⟨s2n_mode.server, s2n_cert_auth_type.auth_none, 1, 1, [], false⟩
      2 [2, 0, 0, 0] =
      .ok ⟨s2n_mode.server, s2n_cert_auth_type.auth_none, 1, 2,
        [hs_event.handler message_type.SERVER_HELLO [],
         hs_event.hash [2, 0, 0, 0]], false⟩ ∧
    (∃ m, (⟨s2n_mode.server, s2n_cert_auth_type.auth_none, 1, 2,
        [hs_event.handler message_type.SERVER_HELLO [],
         hs_event.hash [2, 0, 0, 0]], false⟩ : s2n_connection).events =
      (⟨s2n_mode.server, s2n_cert_auth_type.auth_none, 1, 1, [],
        false⟩ : s2n_connection).events ++
        [hs_event.handler m ([2, 0, 0, 0].drop TLS_HANDSHAKE_HEADER_LENGTH),
         hs_event.hash [2, 0, 0, 0]]) ∧
    handshake_messages_loop (fun _ _ => true)
      ⟨s2n_mode.server, s2n_cert_auth_type.auth_none, 1, 1, [], false⟩
      [] [2, 0, 0, 0] =
      .ok (⟨s2n_mode.server, s2n_cert_auth_type.auth_none, 1, 2,
        [hs_event.handler message_type.SERVER_HELLO [],
         hs_event.hash [2, 0, 0, 0]], false⟩, []) ∧
    (∃ p, [2, 0, 0, 0] = p ++ [] ∧
      hash_transcript (⟨s2n_mode.server, s2n_cert_auth_type.auth_none, 1, 2,
        [hs_event.handler message_type.SERVER_HELLO [],
         hs_event.hash [2, 0, 0, 0]], false⟩ : s2n_connection).events =
      hash_transcript (⟨s2n_mode.server, s2n_cert_auth_type.auth_none, 1, 1,
        [], false⟩ : s2n_connection).events ++ p) := by
  have hstep : s2n_read_message_step (fun _ _ => true)
      ⟨s2n_mode.server, s2n_cert_auth_type.auth_none, 1, 1, [], false⟩
      2 [2, 0, 0, 0] =
      .ok ⟨s2n_mode.server, s2n_cert_auth_type.auth_none, 1, 2,
        [hs_event.handler message_type.SERVER_HELLO [],
         hs_event.hash [2, 0, 0, 0]], false⟩ := by rfl
  have hloop : handshake_messages_loop (fun _ _ => true)
      ⟨s2n_mode.server, s2n_cert_auth_type.auth_none, 1, 1, [], false⟩
      [] [2, 0, 0, 0] =
      .ok (⟨s2n_mode.server, s2n_cert_auth_type.auth_none, 1, 2,
        [hs_event.handler message_type.SERVER_HELLO [],
         hs_event.hash [2, 0, 0, 0]], false⟩, []) := by
    rw [handshake_messages_loop, if_neg (by decide),
      show read_full_handshake_message [] [2, 0, 0, 0] =
        .complete 2 [2, 0, 0, 0] [] from rfl]
    dsimp only
    rw [hstep]
    dsimp only
    rw [handshake_messages_rest_unfold, if_pos rfl]
  refine ⟨by decide, by decide, ?_, hstep, ?_, hloop, ?_⟩
  · exact ((transcript_hash_once_per_byte (fun _ _ => true) (fun _ => [7, 8, 9])).1 2
      ⟨s2n_mode.server, s2n_cert_auth_type.auth_none, 1, 1, [], false⟩
      (by decide) (by decide)).1
  · exact (transcript_hash_once_per_byte (fun _ _ => true) (fun _ => [7, 8, 9])).2.1
      _ 2 [2, 0, 0, 0] _ hstep
  · exact (transcript_hash_once_per_byte (fun _ _ => true) (fun _ => [7, 8, 9])).2.2
      _ [2, 0, 0, 0] _ [] hloop

end S2nHandshakeIo
